import Mathlib

/-! Trampoline OS: the error checking layer, `os/tpl_os_error.h`.

A shallow embedding of the conditional definitions of `tpl_os_error.h` and a
verification of their contracts.

* A build is a `Config`: the five preprocessor switches and the three object
  counts. Each `#if`/`#ifdef` alternative of the header becomes a branch on the
  corresponding switch.
* The header's definitions expand to C statements acting on the variables of
  the calling service and on kernel globals. A `Machine` gathers what these
  statements read and write; a statement is a function `Machine → Machine`
  (`Machine → Option Machine` when it indexes `tpl_task_table`, the index
  being an arbitrary integer).
* Pointers are references (natural numbers) into a store; `NULL` is `none`.
-/

namespace Trampoline

/-! ## Types declared in `tpl_os.h` -/

/-- Modelled from the spec: the status codes of `tpl_os.h` (not part of the
sources at hand). The seven codes of the spec's ErrorCode set are `E_OK`,
`E_OS_ID`, `E_OS_ACCESS`, `E_OS_STATE`, `E_OS_CALLEVEL`, `E_OS_RESOURCE` and
`E_OS_NOFUNC`; `E_OS_LIMIT` (named in the header's comments) and `E_OS_VALUE`
complete the OSEK status set, so that an incoming result may be any of them. -/
inductive tpl_status
  | E_OK
  | E_OS_ACCESS
  | E_OS_CALLEVEL
  | E_OS_ID
  | E_OS_LIMIT
  | E_OS_NOFUNC
  | E_OS_RESOURCE
  | E_OS_STATE
  | E_OS_VALUE
  deriving DecidableEq, Repr

/-- Modelled from the spec: the values of the global `tpl_os_state`; the header
only names `OS_TASK` ("running inside a task"), the others stand for every
execution state that is not task level. -/
inductive tpl_os_state_t
  | OS_INIT
  | OS_TASK
  | OS_IDLE
  | OS_ISR2
  deriving DecidableEq, Repr

/-- Modelled from the spec: the class of an executable object; the header only
names `EXTENDED_TASK`. -/
inductive tpl_exec_obj_type
  | BASIC_TASK
  | EXTENDED_TASK
  | IS_ROUTINE
  deriving DecidableEq, Repr

/-- Modelled from the spec: the execution state of a task; the header only
names `SUSPENDED`. -/
inductive tpl_exec_state
  | SUSPENDED
  | READY
  | RUNNING
  | WAITING
  deriving DecidableEq, Repr

/-- A reference to a `tpl_resource` (a non-null pointer). -/
abbrev ResRef := Nat

/-- A reference to an executable object (a non-null pointer). -/
abbrev ObjRef := Nat

/-- The fields of a resource descriptor read through `res->...`. -/
structure tpl_resource where
  ceiling_priority : Nat
  owner : Option ObjRef
  deriving DecidableEq, Repr

/-- The fields read through `...->static_desc->...`. -/
structure tpl_exec_static where
  base_priority : Nat
  type : tpl_exec_obj_type
  deriving DecidableEq, Repr

/-- The fields of the dynamic descriptor common to executable objects, read
through `tpl_running_obj->...` and `tpl_task_table[id]->exec_desc. ...`;
`resources` points to the resource acquired last (the top of the
held-resource stack) or is `NULL`. -/
structure tpl_exec_common where
  static_desc : tpl_exec_static
  resources : Option ResRef
  state : tpl_exec_state
  deriving DecidableEq, Repr

/-- A task descriptor; `exec_desc` is its first member, so that a pointer to
the running object can be read as a pointer to a task. -/
structure tpl_task where
  exec_desc : tpl_exec_common
  deriving DecidableEq, Repr

/-! ## The service call descriptor (`WITH_ERROR_HOOK`) -/

/-- The value of a pointer argument (`TaskRefType`, `TaskStateRefType`,
`TickRefType`, `AlarmBaseRefType`, `EventMaskRefType`). -/
abbrev Address := Nat

/-- `union ID_PARAM_BLOCK`: the storage holds the member written last. -/
inductive ID_PARAM_BLOCK
  | task_id (v : Int)
  | task_id_ref (r : Address)
  | res_id (v : Int)
  | alarm_id (v : Int)
  deriving DecidableEq, Repr

/-- `union PARAM_PARAM_BLOCK`: the storage holds the member written last. -/
inductive PARAM_PARAM_BLOCK
  | state (r : Address)
  | tick (t : Nat)
  | tick_ref (r : Address)
  | alarm_base_ref (r : Address)
  | mask (e : Nat)
  | mask_ref (r : Address)
  deriving DecidableEq, Repr

/-- Reading `id.task_id`; `none` when another member was written last (the
bytes read are then those of the other member). -/
def ID_PARAM_BLOCK.get_task_id : ID_PARAM_BLOCK → Option Int
  | .task_id v => some v
  | _ => none

/-- Reading `id.task_id_ref`. -/
def ID_PARAM_BLOCK.get_task_id_ref : ID_PARAM_BLOCK → Option Address
  | .task_id_ref r => some r
  | _ => none

/-- Reading `id.res_id`. -/
def ID_PARAM_BLOCK.get_res_id : ID_PARAM_BLOCK → Option Int
  | .res_id v => some v
  | _ => none

/-- Reading `id.alarm_id`. -/
def ID_PARAM_BLOCK.get_alarm_id : ID_PARAM_BLOCK → Option Int
  | .alarm_id v => some v
  | _ => none

/-- Reading `param.state`. -/
def PARAM_PARAM_BLOCK.get_state : PARAM_PARAM_BLOCK → Option Address
  | .state r => some r
  | _ => none

/-- Reading `param.tick`. -/
def PARAM_PARAM_BLOCK.get_tick : PARAM_PARAM_BLOCK → Option Nat
  | .tick t => some t
  | _ => none

/-- Reading `param.tick_ref`. -/
def PARAM_PARAM_BLOCK.get_tick_ref : PARAM_PARAM_BLOCK → Option Address
  | .tick_ref r => some r
  | _ => none

/-- Reading `param.alarm_base_ref`. -/
def PARAM_PARAM_BLOCK.get_alarm_base_ref : PARAM_PARAM_BLOCK → Option Address
  | .alarm_base_ref r => some r
  | _ => none

/-- Reading `param.mask`. -/
def PARAM_PARAM_BLOCK.get_mask : PARAM_PARAM_BLOCK → Option Nat
  | .mask e => some e
  | _ => none

/-- Reading `param.mask_ref`. -/
def PARAM_PARAM_BLOCK.get_mask_ref : PARAM_PARAM_BLOCK → Option Address
  | .mask_ref r => some r
  | _ => none

/-- `struct PARAM_BLOCK`. -/
structure PARAM_BLOCK where
  id : ID_PARAM_BLOCK
  param : PARAM_PARAM_BLOCK
  cycle : Nat
  deriving DecidableEq, Repr

/-- `struct SERVICE_CALL_DESCRIPTOR`, alias `tpl_service_call_desc`;
`service_id` is an `unsigned char`. -/
structure tpl_service_call_desc where
  parameters : PARAM_BLOCK
  service_id : Nat
  deriving DecidableEq, Repr

/-- The calls the header makes to functions defined elsewhere in the kernel,
whose bodies are not part of it. -/
inductive KernelCall
  | tpl_get_task_lock
  | tpl_release_task_lock
  | tpl_call_error_hook (error : tpl_status)
  deriving DecidableEq, Repr

/-! ## Build configuration and machine state -/

/-- The preprocessor switches and the object counts of a build. -/
structure Config where
  OS_EXTENDED : Bool
  NO_TASK : Bool
  NO_RESOURCE : Bool
  NO_ALARM : Bool
  WITH_ERROR_HOOK : Bool
  TASK_COUNT : Nat
  ALARM_COUNT : Nat
  RES_COUNT : Nat
  deriving DecidableEq, Repr

/-- What the statements of the header read and write: the variable `result`
of the calling service and the kernel globals `tpl_os_state`,
`tpl_running_obj`, `tpl_task_table`, with the stores the pointers refer to,
the global `tpl_service`, and the calls made so far to kernel functions
defined elsewhere (oldest first). -/
structure Machine where
  result : tpl_status
  tpl_os_state : tpl_os_state_t
  tpl_running_obj : ObjRef
  tpl_task_table : List ObjRef
  task_mem : ObjRef → tpl_task
  res_mem : ResRef → tpl_resource
  tpl_service : tpl_service_call_desc
  calls : List KernelCall

/-- The object `*tpl_running_obj`. -/
def Machine.running (m : Machine) : tpl_exec_common :=
  (m.task_mem m.tpl_running_obj).exec_desc

/-- The object `*res`. -/
def Machine.res (m : Machine) (res : ResRef) : tpl_resource :=
  m.res_mem res

/-- The task `*tpl_task_table[task_id]`; `none` when `task_id` is not an index
of the table (the C access is then undefined). -/
def Machine.task_at (m : Machine) (task_id : Int) : Option tpl_task :=
  if 0 ≤ task_id then (m.tpl_task_table.get? task_id.toNat).map m.task_mem else none

/-- The assignment `result = code;`. -/
def Machine.setResult (m : Machine) (code : tpl_status) : Machine :=
  { m with result := code }

/-- A call statement `f();` to a kernel function defined elsewhere. -/
def Machine.call (m : Machine) (c : KernelCall) : Machine :=
  { m with calls := m.calls ++ [c] }

/-! ## The `CHECK_*` definitions -/

open tpl_status

/-- `CHECK_TASK_ID_ERROR(task_id,result)`. -/
def CHECK_TASK_ID_ERROR (cfg : Config) (task_id : Int) (m : Machine) : Machine :=
  if cfg.OS_EXTENDED = false then m
  else if cfg.NO_TASK = true then
    (if m.result = E_OK then m.setResult E_OS_ID else m)
  else
    (if m.result = E_OK ∧ task_id ≥ (cfg.TASK_COUNT : Int) then m.setResult E_OS_ID else m)

/-- `CHECK_TASK_CALL_LEVEL_ERROR(result)`. -/
def CHECK_TASK_CALL_LEVEL_ERROR (cfg : Config) (m : Machine) : Machine :=
  if cfg.OS_EXTENDED = false then m
  else if cfg.NO_TASK = true then
    (if m.result = E_OK then m.setResult E_OS_CALLEVEL else m)
  else
    (if m.result = E_OK ∧ m.tpl_os_state ≠ tpl_os_state_t.OS_TASK then
      m.setResult E_OS_CALLEVEL else m)

/-- `CHECK_NOT_EXTENDED_TASK_ERROR(task_id,result)`. -/
def CHECK_NOT_EXTENDED_TASK_ERROR (cfg : Config) (task_id : Int) (m : Machine) :
    Option Machine :=
  if cfg.OS_EXTENDED = true then
    match m.task_at task_id with
    | none => none
    | some t =>
      some (if t.exec_desc.static_desc.type ≠ tpl_exec_obj_type.EXTENDED_TASK then
        m.setResult E_OS_ACCESS else m)
  else some m

/-- `CHECK_NOT_EXTENDED_RUNNING_ERROR(result)`. -/
def CHECK_NOT_EXTENDED_RUNNING_ERROR (cfg : Config) (m : Machine) : Machine :=
  if cfg.OS_EXTENDED = true then
    (if (m.task_mem m.tpl_running_obj).exec_desc.static_desc.type
        ≠ tpl_exec_obj_type.EXTENDED_TASK then
      m.setResult E_OS_ACCESS else m)
  else m

/-- `CHECK_SUSPENDED_TASK_ERROR(task_id,result)`. -/
def CHECK_SUSPENDED_TASK_ERROR (cfg : Config) (task_id : Int) (m : Machine) :
    Option Machine :=
  if cfg.OS_EXTENDED = true then
    match m.task_at task_id with
    | none => none
    | some t =>
      some (if t.exec_desc.state = tpl_exec_state.SUSPENDED then
        m.setResult E_OS_STATE else m)
  else some m

/-- `CHECK_RUNNING_OWNS_REZ_ERROR(result)`. -/
def CHECK_RUNNING_OWNS_REZ_ERROR (cfg : Config) (m : Machine) : Machine :=
  if cfg.NO_TASK = true then m
  else if cfg.OS_EXTENDED = false then m
  else
    (if m.result = E_OK ∧ m.running.resources ≠ none then m.setResult E_OS_RESOURCE else m)

/-- `CHECK_ALARM_ID_ERROR(alarm_id,result)`. -/
def CHECK_ALARM_ID_ERROR (cfg : Config) (alarm_id : Int) (m : Machine) : Machine :=
  if cfg.OS_EXTENDED = false then m
  else if cfg.NO_ALARM = true then
    (if m.result = E_OK then m.setResult E_OS_ID else m)
  else
    (if m.result = E_OK ∧ alarm_id ≥ (cfg.ALARM_COUNT : Int) then m.setResult E_OS_ID else m)

/-- `CHECK_RESOURCE_ID_ERROR(res_id,result)`. -/
def CHECK_RESOURCE_ID_ERROR (cfg : Config) (res_id : Int) (m : Machine) : Machine :=
  if cfg.OS_EXTENDED = false then m
  else if cfg.NO_RESOURCE = true then
    (if m.result = E_OK ∧ res_id ≠ -1 then m.setResult E_OS_ID else m)
  else
    (if m.result = E_OK ∧ (res_id ≥ (cfg.RES_COUNT : Int) ∨ res_id < -1) then
      m.setResult E_OS_ID else m)

/-- `CHECK_RESOURCE_PRIO_ERROR_ON_GET(res,result)`. -/
def CHECK_RESOURCE_PRIO_ERROR_ON_GET (cfg : Config) (res : ResRef) (m : Machine) : Machine :=
  if cfg.OS_EXTENDED = true then
    (if m.result = E_OK ∧
        ((m.res res).owner ≠ none ∨
          m.running.static_desc.base_priority > (m.res res).ceiling_priority) then
      m.setResult E_OS_ACCESS else m)
  else m

/-- `CHECK_RESOURCE_PRIO_ERROR_ON_RELEASE(res,result)`. -/
def CHECK_RESOURCE_PRIO_ERROR_ON_RELEASE (cfg : Config) (res : ResRef) (m : Machine) :
    Machine :=
  if cfg.OS_EXTENDED = true then
    (if m.result = E_OK ∧
        m.running.static_desc.base_priority > (m.res res).ceiling_priority then
      m.setResult E_OS_ACCESS else m)
  else m

/-- `CHECK_RESOURCE_ORDER_ON_RELEASE(res,result)`. -/
def CHECK_RESOURCE_ORDER_ON_RELEASE (cfg : Config) (res : ResRef) (m : Machine) : Machine :=
  if cfg.OS_EXTENDED = true then
    (if m.result = E_OK ∧ ((m.res res).owner = none ∨ m.running.resources ≠ some res) then
      m.setResult E_OS_NOFUNC else m)
  else m

/-! ## Service identifiers -/

/-- `#define OSServiceId_ActivateTask 1`. -/
def OSServiceId_ActivateTask : Nat := 1

/-- `#define OSServiceId_TerminateTask 2`. -/
def OSServiceId_TerminateTask : Nat := 2

/-- `#define OSServiceId_ChainTask 3`. -/
def OSServiceId_ChainTask : Nat := 3

/-- `#define OSServiceId_Schedule 4`. -/
def OSServiceId_Schedule : Nat := 4

/-- `#define OSServiceId_GetTaskID 5`. -/
def OSServiceId_GetTaskID : Nat := 5

/-- `#define OSServiceId_GetTaskState 6`. -/
def OSServiceId_GetTaskState : Nat := 6

/-- `#define OSServiceId_EnableAllInterrupts 7`. -/
def OSServiceId_EnableAllInterrupts : Nat := 7

/-- `#define OSServiceId_DisableAllInterrupts 8`. -/
def OSServiceId_DisableAllInterrupts : Nat := 8

/-- `#define OSServiceId_ResumeAllInterrupts 9`. -/
def OSServiceId_ResumeAllInterrupts : Nat := 9

/-- `#define OSServiceId_SuspendAllInterrupts 10`. -/
def OSServiceId_SuspendAllInterrupts : Nat := 10

/-- `#define OSServiceId_ResumeOSInterrupts 11`. -/
def OSServiceId_ResumeOSInterrupts : Nat := 11

/-- `#define OSServiceId_SuspendOSInterrupts 12`. -/
def OSServiceId_SuspendOSInterrupts : Nat := 12

/-- `#define OSServiceId_GetResource 13`. -/
def OSServiceId_GetResource : Nat := 13

/-- `#define OSServiceId_ReleaseResource 14`. -/
def OSServiceId_ReleaseResource : Nat := 14

/-- `#define OSServiceId_SetEvent 15`. -/
def OSServiceId_SetEvent : Nat := 15

/-- `#define OSServiceId_ClearEvent 16`. -/
def OSServiceId_ClearEvent : Nat := 16

/-- `#define OSServiceId_GetEvent 17`. -/
def OSServiceId_GetEvent : Nat := 17

/-- `#define OSServiceId_WaitEvent 18`. -/
def OSServiceId_WaitEvent : Nat := 18

/-- `#define OSServiceId_GetAlarmBase 19`. -/
def OSServiceId_GetAlarmBase : Nat := 19

/-- `#define OSServiceId_GetAlarm 20`. -/
def OSServiceId_GetAlarm : Nat := 20

/-- `#define OSServiceId_SetRelAlarm 21`. -/
def OSServiceId_SetRelAlarm : Nat := 21

/-- `#define OSServiceId_SetAbsAlarm 22`. -/
def OSServiceId_SetAbsAlarm : Nat := 22

/-- `#define OSServiceId_CancelAlarm 23`. -/
def OSServiceId_CancelAlarm : Nat := 23

/-- `#define OSServiceId_GetActiveApplicationMode 24`. -/
def OSServiceId_GetActiveApplicationMode : Nat := 24

/-- `#define OSServiceId_StartOS 25`. -/
def OSServiceId_StartOS : Nat := 25

/-- `#define OSServiceId_ShutdownOS 26`. -/
def OSServiceId_ShutdownOS : Nat := 26

/-- The service identifiers the header defines, in the order of the file. -/
def allServiceIds : List Nat :=
  [OSServiceId_ActivateTask, OSServiceId_TerminateTask, OSServiceId_ChainTask,
    OSServiceId_Schedule, OSServiceId_GetTaskID, OSServiceId_GetTaskState,
    OSServiceId_EnableAllInterrupts, OSServiceId_DisableAllInterrupts,
    OSServiceId_ResumeAllInterrupts, OSServiceId_SuspendAllInterrupts,
    OSServiceId_ResumeOSInterrupts, OSServiceId_SuspendOSInterrupts, OSServiceId_GetResource,
    OSServiceId_ReleaseResource, OSServiceId_SetEvent, OSServiceId_ClearEvent,
    OSServiceId_GetEvent, OSServiceId_WaitEvent, OSServiceId_GetAlarmBase, OSServiceId_GetAlarm,
    OSServiceId_SetRelAlarm, OSServiceId_SetAbsAlarm, OSServiceId_CancelAlarm,
    OSServiceId_GetActiveApplicationMode, OSServiceId_StartOS, OSServiceId_ShutdownOS]

/-! ## Accessors for the error hook (defined under `WITH_ERROR_HOOK` only) -/

/-- `OSErrorGetServiceId()`. -/
def OSErrorGetServiceId (m : Machine) : Nat :=
  m.tpl_service.service_id

/-- `OSError_ActivateTask_TaskID()`, that is `tpl_service.parameters.id.task_id`. -/
def OSError_ActivateTask_TaskID (m : Machine) : Option Int :=
  m.tpl_service.parameters.id.get_task_id

/-- `OSError_ChainTask_TaskID()`, that is `tpl_service.parameters.id.task_id`. -/
def OSError_ChainTask_TaskID (m : Machine) : Option Int :=
  m.tpl_service.parameters.id.get_task_id

/-- `OSError_GetTaskID_TaskID()`, that is `tpl_service.parameters.id.task_id_ref`. -/
def OSError_GetTaskID_TaskID (m : Machine) : Option Address :=
  m.tpl_service.parameters.id.get_task_id_ref

/-- `OSError_GetTaskState_TaskID()`, that is `tpl_service.parameters.id.task_id`. -/
def OSError_GetTaskState_TaskID (m : Machine) : Option Int :=
  m.tpl_service.parameters.id.get_task_id

/-- `OSError_GetTaskState_State()`, that is `tpl_service.parameters.param.state`. -/
def OSError_GetTaskState_State (m : Machine) : Option Address :=
  m.tpl_service.parameters.param.get_state

/-- `OSError_GetResource_ResID()`, that is `tpl_service.parameters.id.res_id`. -/
def OSError_GetResource_ResID (m : Machine) : Option Int :=
  m.tpl_service.parameters.id.get_res_id

/-- `OSError_ReleaseResource_ResID()`, that is `tpl_service.parameters.id.res_id`. -/
def OSError_ReleaseResource_ResID (m : Machine) : Option Int :=
  m.tpl_service.parameters.id.get_res_id

/-- `OSError_SetEvent_TaskID()`, that is `tpl_service.parameters.id.task_id`. -/
def OSError_SetEvent_TaskID (m : Machine) : Option Int :=
  m.tpl_service.parameters.id.get_task_id

/-- `OSError_SetEvent_Mask()`, that is `tpl_service.parameters.param.mask`. -/
def OSError_SetEvent_Mask (m : Machine) : Option Nat :=
  m.tpl_service.parameters.param.get_mask

/-- `OSError_ClearEvent_Mask()`, that is `tpl_service.parameters.param.mask`. -/
def OSError_ClearEvent_Mask (m : Machine) : Option Nat :=
  m.tpl_service.parameters.param.get_mask

/-- `OSError_GetEvent_TaskID()`, that is `tpl_service.parameters.id.task_id`. -/
def OSError_GetEvent_TaskID (m : Machine) : Option Int :=
  m.tpl_service.parameters.id.get_task_id

/-- `OSError_GetEvent_Event()`, that is `tpl_service.parameters.param.mask`. -/
def OSError_GetEvent_Event (m : Machine) : Option Nat :=
  m.tpl_service.parameters.param.get_mask

/-- `OSError_WaitEvent_Mask()`, that is `tpl_service.parameters.param.mask`. -/
def OSError_WaitEvent_Mask (m : Machine) : Option Nat :=
  m.tpl_service.parameters.param.get_mask

/-- `OSError_GetAlarmBase_AlarmID()`, that is `tpl_service.parameters.id.alarm_id`. -/
def OSError_GetAlarmBase_AlarmID (m : Machine) : Option Int :=
  m.tpl_service.parameters.id.get_alarm_id

/-- `OSError_GetAlarmBase_Info()`, that is `tpl_service.parameters.param.alarm_base_ref`. -/
def OSError_GetAlarmBase_Info (m : Machine) : Option Address :=
  m.tpl_service.parameters.param.get_alarm_base_ref

/-- `OSError_GetAlarm_AlarmID()`, that is `tpl_service.parameters.id.alarm_id`. -/
def OSError_GetAlarm_AlarmID (m : Machine) : Option Int :=
  m.tpl_service.parameters.id.get_alarm_id

/-- `OSError_GetAlarm_Tick()`, that is `tpl_service.parameters.param.tick_ref`. -/
def OSError_GetAlarm_Tick (m : Machine) : Option Address :=
  m.tpl_service.parameters.param.get_tick_ref

/-- `OSError_SetRelAlarm_AlarmID()`, that is `tpl_service.parameters.id.alarm_id`. -/
def OSError_SetRelAlarm_AlarmID (m : Machine) : Option Int :=
  m.tpl_service.parameters.id.get_alarm_id

/-- `OSError_SetRelAlarm_increment()`, that is `tpl_service.parameters.param.tick`. -/
def OSError_SetRelAlarm_increment (m : Machine) : Option Nat :=
  m.tpl_service.parameters.param.get_tick

/-- `OSError_SetRelAlarm_cycle()`, that is `tpl_service.parameters.cycle`. -/
def OSError_SetRelAlarm_cycle (m : Machine) : Nat :=
  m.tpl_service.parameters.cycle

/-- `OSError_SetAbsAlarm_AlarmID()`, that is `tpl_service.parameters.id.alarm_id`. -/
def OSError_SetAbsAlarm_AlarmID (m : Machine) : Option Int :=
  m.tpl_service.parameters.id.get_alarm_id

/-- `OSError_SetAbsAlarm_start()`, that is `tpl_service.parameters.param.tick`. -/
def OSError_SetAbsAlarm_start (m : Machine) : Option Nat :=
  m.tpl_service.parameters.param.get_tick

/-- `OSError_SetAbsAlarm_cycle()`, that is `tpl_service.parameters.cycle`. -/
def OSError_SetAbsAlarm_cycle (m : Machine) : Nat :=
  m.tpl_service.parameters.cycle

/-- `OSError_CancelAlarm_AlarmID()`, that is `tpl_service.parameters.id.alarm_id`. -/
def OSError_CancelAlarm_AlarmID (m : Machine) : Option Int :=
  m.tpl_service.parameters.id.get_alarm_id

/-! ## The `STORE_*` definitions, `PROCESS_ERROR` and the lock policies -/

/-- The assignment `tpl_service.parameters.id.<member> = v;`. -/
def Machine.setId (m : Machine) (v : ID_PARAM_BLOCK) : Machine :=
  { m with tpl_service :=
      { m.tpl_service with parameters := { m.tpl_service.parameters with id := v } } }

/-- The assignment `tpl_service.parameters.param.<member> = v;`. -/
def Machine.setParam (m : Machine) (v : PARAM_PARAM_BLOCK) : Machine :=
  { m with tpl_service :=
      { m.tpl_service with parameters := { m.tpl_service.parameters with param := v } } }

/-- `STORE_SERVICE(service)`: the value is converted to `unsigned char`. -/
def STORE_SERVICE (cfg : Config) (service : Nat) (m : Machine) : Machine :=
  if cfg.WITH_ERROR_HOOK = true then
    { m with tpl_service := { m.tpl_service with service_id := service % 256 } }
  else m

/-- `STORE_TASK_ID(task_id)`. The parameter bears the name of the member, so the
one argument that compiles is a variable called `task_id`; its value is stored. -/
def STORE_TASK_ID (cfg : Config) (task_id : Int) (m : Machine) : Machine :=
  if cfg.WITH_ERROR_HOOK = true then m.setId (.task_id task_id) else m

/-- `STORE_TASK_ID_REF(task_id_ref)`: with the hook, the expression statement
`tpl_service.parameters.id.task_id_ref;`, which assigns nothing. -/
def STORE_TASK_ID_REF (cfg : Config) (_task_id_ref : Address) (m : Machine) : Machine :=
  if cfg.WITH_ERROR_HOOK = true then m else m

/-- `STORE_TASK_STATE_REF(state)`. -/
def STORE_TASK_STATE_REF (cfg : Config) (state : Address) (m : Machine) : Machine :=
  if cfg.WITH_ERROR_HOOK = true then m.setParam (.state state) else m

/-- `STORE_RESOURCE_ID(res_id)`. -/
def STORE_RESOURCE_ID (cfg : Config) (res_id : Int) (m : Machine) : Machine :=
  if cfg.WITH_ERROR_HOOK = true then m.setId (.res_id res_id) else m

/-- `STORE_ALARM_ID(alarm_id)`. -/
def STORE_ALARM_ID (cfg : Config) (alarm_id : Int) (m : Machine) : Machine :=
  if cfg.WITH_ERROR_HOOK = true then m.setId (.alarm_id alarm_id) else m

/-- `STORE_ALARM_BASE_REF(ref)`. -/
def STORE_ALARM_BASE_REF (cfg : Config) (ref : Address) (m : Machine) : Machine :=
  if cfg.WITH_ERROR_HOOK = true then m.setParam (.alarm_base_ref ref) else m

/-- `STORE_TICK_REF(ref)`. -/
def STORE_TICK_REF (cfg : Config) (ref : Address) (m : Machine) : Machine :=
  if cfg.WITH_ERROR_HOOK = true then m.setParam (.tick_ref ref) else m

/-- `STORE_TICK_1(t)`. -/
def STORE_TICK_1 (cfg : Config) (t : Nat) (m : Machine) : Machine :=
  if cfg.WITH_ERROR_HOOK = true then m.setParam (.tick t) else m

/-- `STORE_TICK_2(t)`. -/
def STORE_TICK_2 (cfg : Config) (t : Nat) (m : Machine) : Machine :=
  if cfg.WITH_ERROR_HOOK = true then
    { m with tpl_service :=
        { m.tpl_service with parameters := { m.tpl_service.parameters with cycle := t } } }
  else m

/-- `STORE_EVENT_MASK(m)`. -/
def STORE_EVENT_MASK (cfg : Config) (mask : Nat) (m : Machine) : Machine :=
  if cfg.WITH_ERROR_HOOK = true then m.setParam (.mask mask) else m

/-- `STORE_EVENT_MASK_REF(ref)`. -/
def STORE_EVENT_MASK_REF (cfg : Config) (ref : Address) (m : Machine) : Machine :=
  if cfg.WITH_ERROR_HOOK = true then m.setParam (.mask_ref ref) else m

/-- `PROCESS_ERROR(error)`. The hook receives the code by value; what its body
does is not part of the header, the call is recorded. -/
def PROCESS_ERROR (cfg : Config) (error : tpl_status) (m : Machine) : Machine :=
  if cfg.WITH_ERROR_HOOK = true then
    (if error ≠ E_OK then m.call (.tpl_call_error_hook error) else m)
  else m

/-- `LOCK_WHEN_HOOK()`. -/
def LOCK_WHEN_HOOK (cfg : Config) (m : Machine) : Machine :=
  if cfg.WITH_ERROR_HOOK = true then m.call .tpl_get_task_lock else m

/-- `UNLOCK_WHEN_HOOK()`. -/
def UNLOCK_WHEN_HOOK (cfg : Config) (m : Machine) : Machine :=
  if cfg.WITH_ERROR_HOOK = true then m.call .tpl_release_task_lock else m

/-- `LOCK_WHEN_NO_HOOK()`. -/
def LOCK_WHEN_NO_HOOK (cfg : Config) (m : Machine) : Machine :=
  if cfg.WITH_ERROR_HOOK = true then m else m.call .tpl_get_task_lock

/-- `UNLOCK_WHEN_NO_HOOK()`. -/
def UNLOCK_WHEN_NO_HOOK (cfg : Config) (m : Machine) : Machine :=
  if cfg.WITH_ERROR_HOOK = true then m else m.call .tpl_release_task_lock

/-- `LOCK_WHEN_TASK()`. -/
def LOCK_WHEN_TASK (cfg : Config) (m : Machine) : Machine :=
  if cfg.NO_TASK = true then m else m.call .tpl_get_task_lock

/-- `UNLOCK_WHEN_TASK()`. -/
def UNLOCK_WHEN_TASK (cfg : Config) (m : Machine) : Machine :=
  if cfg.NO_TASK = true then m else m.call .tpl_release_task_lock

/-- `LOCK_WHEN_RESOURCE()`. -/
def LOCK_WHEN_RESOURCE (cfg : Config) (m : Machine) : Machine :=
  if cfg.NO_RESOURCE = true then m else m.call .tpl_get_task_lock

/-- `UNLOCK_WHEN_RESOURCE()`. -/
def UNLOCK_WHEN_RESOURCE (cfg : Config) (m : Machine) : Machine :=
  if cfg.NO_RESOURCE = true then m else m.call .tpl_release_task_lock

/-- How many times the kernel lock has been taken. -/
def Machine.acquisitions (m : Machine) : Nat :=
  m.calls.count .tpl_get_task_lock

/-- How many times the kernel lock has been released. -/
def Machine.releases (m : Machine) : Nat :=
  m.calls.count .tpl_release_task_lock

/-- How many times the error hook has been called with the code `c`. -/
def Machine.hookCalls (m : Machine) (c : tpl_status) : Nat :=
  m.calls.count (.tpl_call_error_hook c)

/-- The body of a service, between a lock and its unlock, neither takes nor
releases the kernel lock itself. -/
def lockNeutral (body : Machine → Machine) : Prop :=
  ∀ x : Machine, (body x).acquisitions = x.acquisitions ∧ (body x).releases = x.releases

/-- A service: its body bracketed by a lock and the matching unlock. -/
def bracketed (lock unlock body : Machine → Machine) (m : Machine) : Machine :=
  unlock (body (lock m))

/-! ## Sample build and states used to instantiate the theorems -/

/-- A build with extended checking, every object kind present, three tasks,
two alarms and two resources. -/
def sampleConfig : Config :=
  { OS_EXTENDED := true, NO_TASK := false, NO_RESOURCE := false, NO_ALARM := false,
    WITH_ERROR_HOOK := true, TASK_COUNT := 3, ALARM_COUNT := 2, RES_COUNT := 2 }

/-- A state at task level: task 0 (extended, base priority 1) runs and holds
nothing; task 2 is suspended; resource `r` has ceiling `r + 1`; resource 1 is
owned by task 1, every other resource is free; the descriptor holds a task
identifier reference 7; no kernel function has been called yet. -/
def sampleMachine : Machine :=
  { result := E_OK
    tpl_os_state := tpl_os_state_t.OS_TASK
    tpl_running_obj := 0
    tpl_task_table := [0, 1, 2]
    task_mem := fun t =>
      { exec_desc :=
          { static_desc :=
              { base_priority := t + 1
                type := if t = 0 then tpl_exec_obj_type.EXTENDED_TASK
                        else tpl_exec_obj_type.BASIC_TASK }
            resources := if t = 1 then some 1 else none
            state := if t = 2 then tpl_exec_state.SUSPENDED else tpl_exec_state.READY } }
    res_mem := fun r =>
      { ceiling_priority := r + 1, owner := if r = 1 then some 1 else none }
    tpl_service :=
      { parameters := { id := .task_id_ref 7, param := .tick 0, cycle := 0 }
        service_id := 0 }
    calls := [] }

/-- The sample state seen by task 1 (base priority 2), which holds resource 1. -/
def sampleMachineTask1 : Machine :=
  { sampleMachine with tpl_running_obj := 1 }

/-- The sample build without extended checking. -/
def sampleConfigStandard : Config :=
  { sampleConfig with OS_EXTENDED := false }

/-- The sample build without the error hook. -/
def sampleConfigNoHook : Config :=
  { sampleConfig with WITH_ERROR_HOOK := false }

/-- The sample build with every object kind compiled out. -/
def sampleConfigNoObjects : Config :=
  { sampleConfig with NO_TASK := true, NO_ALARM := true, NO_RESOURCE := true }

/-! ## Validation pipelines -/

/-- The validators that test `result == E_OK` themselves: the identifier
checks, the call level check, the still-holding check and the three checks of
the resource protocol, each with its argument. -/
inductive Validator
  | taskId (task_id : Int)
  | alarmId (alarm_id : Int)
  | resourceId (res_id : Int)
  | callLevel
  | runningOwnsRez
  | prioOnGet (res : ResRef)
  | prioOnRelease (res : ResRef)
  | orderOnRelease (res : ResRef)
  deriving DecidableEq, Repr

/-- The statement a validator stands for. -/
def Validator.run (cfg : Config) : Validator → Machine → Machine
  | .taskId task_id, m => CHECK_TASK_ID_ERROR cfg task_id m
  | .alarmId alarm_id, m => CHECK_ALARM_ID_ERROR cfg alarm_id m
  | .resourceId res_id, m => CHECK_RESOURCE_ID_ERROR cfg res_id m
  | .callLevel, m => CHECK_TASK_CALL_LEVEL_ERROR cfg m
  | .runningOwnsRez, m => CHECK_RUNNING_OWNS_REZ_ERROR cfg m
  | .prioOnGet res, m => CHECK_RESOURCE_PRIO_ERROR_ON_GET cfg res m
  | .prioOnRelease res, m => CHECK_RESOURCE_PRIO_ERROR_ON_RELEASE cfg res m
  | .orderOnRelease res, m => CHECK_RESOURCE_ORDER_ON_RELEASE cfg res m

/-- The error code a validator reports. -/
def Validator.code : Validator → tpl_status
  | .taskId _ => E_OS_ID
  | .alarmId _ => E_OS_ID
  | .resourceId _ => E_OS_ID
  | .callLevel => E_OS_CALLEVEL
  | .runningOwnsRez => E_OS_RESOURCE
  | .prioOnGet _ => E_OS_ACCESS
  | .prioOnRelease _ => E_OS_ACCESS
  | .orderOnRelease _ => E_OS_NOFUNC

/-- What the `if` of a validator tests besides `result == E_OK` in a build with
extended checking, as the header writes it. It depends on the kernel state and
on the argument, never on the pending result. -/
def Validator.fires (cfg : Config) (m : Machine) : Validator → Bool
  | .taskId task_id =>
      if cfg.NO_TASK = true then true else decide (task_id ≥ (cfg.TASK_COUNT : Int))
  | .alarmId alarm_id =>
      if cfg.NO_ALARM = true then true else decide (alarm_id ≥ (cfg.ALARM_COUNT : Int))
  | .resourceId res_id =>
      if cfg.NO_RESOURCE = true then decide (res_id ≠ -1)
      else decide (res_id ≥ (cfg.RES_COUNT : Int) ∨ res_id < -1)
  | .callLevel =>
      if cfg.NO_TASK = true then true
      else decide (m.tpl_os_state ≠ tpl_os_state_t.OS_TASK)
  | .runningOwnsRez =>
      if cfg.NO_TASK = true then false else decide (m.running.resources ≠ none)
  | .prioOnGet res =>
      decide ((m.res res).owner ≠ none ∨
        m.running.static_desc.base_priority > (m.res res).ceiling_priority)
  | .prioOnRelease res =>
      decide (m.running.static_desc.base_priority > (m.res res).ceiling_priority)
  | .orderOnRelease res =>
      decide ((m.res res).owner = none ∨ m.running.resources ≠ some res)

/-- The violation condition of a validator as the specification words it. An
identifier is invalid when its object kind does not exist in the build or when
its value lies outside `[0, count)`; a resource identifier equal to the
sentinel -1 is admitted. The call level is wrong when no task exists or when
the execution state is not task level. A resource is still held when tasks
exist and the stack of the running object is not empty. An acquisition is
denied when the resource has an owner or the base priority of the running
object exceeds its ceiling; a release is denied when that priority exceeds the
ceiling, and is out of order when the resource has no owner or is not the top
of the stack of the running object. -/
def Validator.violated (cfg : Config) (m : Machine) : Validator → Bool
  | .taskId task_id =>
      decide (cfg.NO_TASK = true ∨ ¬ (0 ≤ task_id ∧ task_id < (cfg.TASK_COUNT : Int)))
  | .alarmId alarm_id =>
      decide (cfg.NO_ALARM = true ∨ ¬ (0 ≤ alarm_id ∧ alarm_id < (cfg.ALARM_COUNT : Int)))
  | .resourceId res_id =>
      decide (res_id ≠ -1 ∧
        (cfg.NO_RESOURCE = true ∨ ¬ (0 ≤ res_id ∧ res_id < (cfg.RES_COUNT : Int))))
  | .callLevel =>
      decide (cfg.NO_TASK = true ∨ m.tpl_os_state ≠ tpl_os_state_t.OS_TASK)
  | .runningOwnsRez =>
      decide (cfg.NO_TASK = false ∧ m.running.resources ≠ none)
  | .prioOnGet res =>
      decide ((m.res res).owner ≠ none ∨
        (m.res res).ceiling_priority < m.running.static_desc.base_priority)
  | .prioOnRelease res =>
      decide ((m.res res).ceiling_priority < m.running.static_desc.base_priority)
  | .orderOnRelease res =>
      decide ((m.res res).owner = none ∨ m.running.resources ≠ some res)

/-- The task and alarm identifiers among the arguments are not negative. -/
def Validator.idNotNegative : Validator → Prop
  | .taskId task_id => 0 ≤ task_id
  | .alarmId alarm_id => 0 ≤ alarm_id
  | _ => True

/-- A service runs its validators one after the other on the same `result`. -/
def runPipeline (cfg : Config) (vs : List Validator) (m : Machine) : Machine :=
  vs.foldl (fun acc v => v.run cfg acc) m

/-- The code of the first validator of the sequence that is violated in state
`m`, and `E_OK` when none is. -/
def firstViolationCode (cfg : Config) (m : Machine) (vs : List Validator) : tpl_status :=
  match vs.find? (Validator.violated cfg m) with
  | some v => v.code
  | none => E_OK

/-! ## Documented conditions of the resource protocol -/

/-- The condition under which `CHECK_RESOURCE_PRIO_ERROR_ON_GET` is documented
to report: no error pending, and the resource is owned or its ceiling is below
the base priority of the running object. -/
def getViolation (res : ResRef) (m : Machine) : Prop :=
  m.result = E_OK ∧
    ((m.res res).owner ≠ none ∨
      (m.res res).ceiling_priority < m.running.static_desc.base_priority)

instance (res : ResRef) (m : Machine) : Decidable (getViolation res m) := by
  unfold getViolation; infer_instance

/-- The condition under which `CHECK_RESOURCE_ORDER_ON_RELEASE` is documented
to report: no error pending, and the resource has no owner or is not the top
of the held-resource stack of the running object. -/
def releaseOrderViolation (res : ResRef) (m : Machine) : Prop :=
  m.result = E_OK ∧ ((m.res res).owner = none ∨ m.running.resources ≠ some res)

instance (res : ResRef) (m : Machine) : Decidable (releaseOrderViolation res m) := by
  unfold releaseOrderViolation; infer_instance

/-! ## Sequences of recording operations -/

/-- The four recording operations of a SetRelAlarm or SetAbsAlarm call, one
for each slot of the descriptor, with their argument. -/
inductive RecordOp
  | service (s : Nat)
  | alarmId (alarm_id : Int)
  | tick1 (t : Nat)
  | tick2 (t : Nat)
  deriving DecidableEq, Repr

/-- The statement a recording operation stands for. -/
def RecordOp.run (cfg : Config) : RecordOp → Machine → Machine
  | .service s, m => STORE_SERVICE cfg s m
  | .alarmId alarm_id, m => STORE_ALARM_ID cfg alarm_id m
  | .tick1 t, m => STORE_TICK_1 cfg t m
  | .tick2 t, m => STORE_TICK_2 cfg t m

/-- Recording operations performed one after the other. -/
def record (cfg : Config) (ops : List RecordOp) (m : Machine) : Machine :=
  ops.foldl (fun acc op => op.run cfg acc) m

/-! ## All the validators -/

/-- Everything but `result` is the same in both states: the execution state of
the system, the running object, the task table, every task descriptor (class,
execution state, held-resource stack), every resource descriptor (owner,
ceiling), the diagnostic descriptor and the calls made. -/
def Machine.sameKernel (m n : Machine) : Prop :=
  n.tpl_os_state = m.tpl_os_state ∧ n.tpl_running_obj = m.tpl_running_obj ∧
  n.tpl_task_table = m.tpl_task_table ∧ n.task_mem = m.task_mem ∧
  n.res_mem = m.res_mem ∧ n.tpl_service = m.tpl_service ∧ n.calls = m.calls

/-- Every validator of the header: those that test `result == E_OK`
themselves, and the task class and suspended-state checks. -/
inductive Check
  | guarded (v : Validator)
  | notExtendedTask (task_id : Int)
  | notExtendedRunning
  | suspendedTask (task_id : Int)
  deriving DecidableEq, Repr

/-- The statement a check stands for; `none` when it indexes the task table
outside its bounds. -/
def Check.run (cfg : Config) : Check → Machine → Option Machine
  | .guarded v, m => some (v.run cfg m)
  | .notExtendedTask task_id, m => CHECK_NOT_EXTENDED_TASK_ERROR cfg task_id m
  | .notExtendedRunning, m => some (CHECK_NOT_EXTENDED_RUNNING_ERROR cfg m)
  | .suspendedTask task_id, m => CHECK_SUSPENDED_TASK_ERROR cfg task_id m

/-- The one error code a check assigns. -/
def Check.code : Check → tpl_status
  | .guarded v => v.code
  | .notExtendedTask _ => E_OS_ACCESS
  | .notExtendedRunning => E_OS_ACCESS
  | .suspendedTask _ => E_OS_STATE

/-- Checks run one after the other on the same `result`. -/
def runChecks (cfg : Config) : List Check → Machine → Option Machine
  | [], m => some m
  | c :: cs, m =>
    match c.run cfg m with
    | none => none
    | some n => runChecks cfg cs n

/-! ## Effects of acquiring and releasing a resource -/

/-- The invariant of the resource descriptors: the owner of a resource, if
set, has a base priority at most the ceiling priority of the resource. -/
def ownerInvariant (m : Machine) : Prop :=
  ∀ (r : ResRef) (o : ObjRef), (m.res r).owner = some o →
    (m.task_mem o).exec_desc.static_desc.base_priority ≤ (m.res r).ceiling_priority

/-- Modelled from the spec: the assignment `res->owner = owner;` made by the
services that acquire and release a resource, which are not part of the
sources at hand ("an owner reference: the task currently holding it, or
none"). -/
def Machine.setOwner (m : Machine) (res : ResRef) (owner : Option ObjRef) : Machine :=
  { m with res_mem := fun r =>
      if r = res then { m.res_mem r with owner := owner } else m.res_mem r }

/-- Modelled from the spec: the assignment `tpl_running_obj->resources = top;`
made by the services that acquire and release a resource, which are not part
of the sources at hand ("a reference to the top of its held-resources stack,
or none"). -/
def Machine.setResources (m : Machine) (top : Option ResRef) : Machine :=
  { m with task_mem := fun o =>
      if o = m.tpl_running_obj then
        { exec_desc := { (m.task_mem o).exec_desc with resources := top } }
      else m.task_mem o }

/-- Modelled from the spec: the held-resource stack of the running object,
"an ordered (last-acquired-first) sequence of resource references", of which
the header only reads the top through `tpl_running_obj->resources`. The
services that maintain it are not part of the sources at hand. -/
structure ResourceView where
  machine : Machine
  held : List ResRef

/-- The field `resources` of the running object is the top of its stack. -/
def ResourceView.coherent (k : ResourceView) : Prop :=
  k.machine.running.resources = k.held.head?

/-- Modelled from the spec: the effect of acquiring `res`, missing from the
sources at hand: "set res.owner to the running task and push res on the
running task's held-resource stack" ("acquisition pushes"). -/
def acquire (res : ResRef) (k : ResourceView) : ResourceView :=
  { machine :=
      (k.machine.setOwner res (some k.machine.tpl_running_obj)).setResources (some res)
    held := res :: k.held }

/-- Modelled from the spec: the effect of releasing `res`, missing from the
sources at hand: the inverse of `acquire` ("release pops"); `res` has no
owner any more and the stack loses its top. -/
def release (res : ResRef) (k : ResourceView) : ResourceView :=
  { machine := (k.machine.setOwner res none).setResources k.held.tail.head?
    held := k.held.tail }

/-- The validation of a release of `res`: the priority check, then the order
check, from the pending `result`. -/
def validateRelease (cfg : Config) (res : ResRef) (m : Machine) : Machine :=
  CHECK_RESOURCE_ORDER_ON_RELEASE cfg res (CHECK_RESOURCE_PRIO_ERROR_ON_RELEASE cfg res m)

/-- The validation of a release of `res` with the two checks in the other
order. -/
def validateReleaseSwapped (cfg : Config) (res : ResRef) (m : Machine) : Machine :=
  CHECK_RESOURCE_PRIO_ERROR_ON_RELEASE cfg res (CHECK_RESOURCE_ORDER_ON_RELEASE cfg res m)

/-! ## Nested lock pairs -/

/-- The four lock policies of the header. -/
inductive LockPolicy
  | WHEN_HOOK
  | WHEN_NO_HOOK
  | WHEN_TASK
  | WHEN_RESOURCE
  deriving DecidableEq, Repr

/-- `LOCK_x()` for the policy `x`. -/
def LockPolicy.lock (cfg : Config) : LockPolicy → Machine → Machine
  | .WHEN_HOOK => LOCK_WHEN_HOOK cfg
  | .WHEN_NO_HOOK => LOCK_WHEN_NO_HOOK cfg
  | .WHEN_TASK => LOCK_WHEN_TASK cfg
  | .WHEN_RESOURCE => LOCK_WHEN_RESOURCE cfg

/-- `UNLOCK_x()` for the policy `x`. -/
def LockPolicy.unlock (cfg : Config) : LockPolicy → Machine → Machine
  | .WHEN_HOOK => UNLOCK_WHEN_HOOK cfg
  | .WHEN_NO_HOOK => UNLOCK_WHEN_NO_HOOK cfg
  | .WHEN_TASK => UNLOCK_WHEN_TASK cfg
  | .WHEN_RESOURCE => UNLOCK_WHEN_RESOURCE cfg

/-- The build condition under which the pair of a policy is not empty. -/
def LockPolicy.enabled (cfg : Config) : LockPolicy → Bool
  | .WHEN_HOOK => cfg.WITH_ERROR_HOOK
  | .WHEN_NO_HOOK => !cfg.WITH_ERROR_HOOK
  | .WHEN_TASK => !cfg.NO_TASK
  | .WHEN_RESOURCE => !cfg.NO_RESOURCE

/-- The pairs of `ps` opened in order: `LOCK_p1() LOCK_p2() ...`. -/
def openPairs (cfg : Config) (ps : List LockPolicy) (m : Machine) : Machine :=
  ps.foldl (fun acc p => p.lock cfg acc) m

/-- The pairs of `ps` closed, the innermost first: `... UNLOCK_p2() UNLOCK_p1()`. -/
def closePairs (cfg : Config) (ps : List LockPolicy) (m : Machine) : Machine :=
  ps.foldr (fun p acc => p.unlock cfg acc) m

/-- A service body that brackets its work with the matching pairs of `ps`. -/
def nestedService (cfg : Config) (ps : List LockPolicy) (work : Machine → Machine)
    (m : Machine) : Machine :=
  closePairs cfg ps (work (openPairs cfg ps m))

/-- The kernel lock is free: it has been released as often as taken. -/
def Machine.lockFree (m : Machine) : Prop :=
  m.acquisitions = m.releases

/-- The sample state with the stack of the running task 0, which is empty. -/
def sampleView : ResourceView :=
  { machine := sampleMachine, held := [] }

/-! ## Resource protocol validators -/

/-- C1. Under extended checking, `CHECK_RESOURCE_PRIO_ERROR_ON_GET` sets the
result to `E_OS_ACCESS` exactly when the incoming result is `E_OK` and the
resource already has an owner or the base priority of the running object is
strictly greater than the ceiling priority of the resource; in every other
case the result (indeed the whole state) is left as it was. -/
theorem C1_check_resource_prio_error_on_get (cfg : Config) (res : ResRef) (m : Machine)
    (hext : cfg.OS_EXTENDED = true) :
    (getViolation res m →
        CHECK_RESOURCE_PRIO_ERROR_ON_GET cfg res m = m.setResult E_OS_ACCESS) ∧
    (¬ getViolation res m → CHECK_RESOURCE_PRIO_ERROR_ON_GET cfg res m = m) := by
  unfold CHECK_RESOURCE_PRIO_ERROR_ON_GET getViolation
  constructor
  · intro h
    simp only [hext, if_true]
    exact if_pos h
  · intro h
    simp only [hext, if_true]
    exact if_neg h

/-- C1, instantiated: in the sample build the running task 0 is refused
resource 1, which task 1 owns, and is granted the free resource 0. -/
theorem C1_check_resource_prio_error_on_get_witness :
    sampleConfig.OS_EXTENDED = true ∧
    (CHECK_RESOURCE_PRIO_ERROR_ON_GET sampleConfig 1 sampleMachine).result = E_OS_ACCESS ∧
    (CHECK_RESOURCE_PRIO_ERROR_ON_GET sampleConfig 0 sampleMachine).result = E_OK := by
  refine ⟨rfl, ?_, ?_⟩
  · rw [(C1_check_resource_prio_error_on_get sampleConfig 1 sampleMachine rfl).1 (by decide)]
    rfl
  · rw [(C1_check_resource_prio_error_on_get sampleConfig 0 sampleMachine rfl).2 (by decide)]
    rfl

/-- C2. Under extended checking, `CHECK_RESOURCE_ORDER_ON_RELEASE` sets the
result to `E_OS_NOFUNC` exactly when the incoming result is `E_OK` and the
resource has no owner or is not the top of the held-resource stack of the
running object; when the resource is owned and is the top of that stack the
result is left unchanged. -/
theorem C2_check_resource_order_on_release (cfg : Config) (res : ResRef) (m : Machine)
    (hext : cfg.OS_EXTENDED = true) :
    (releaseOrderViolation res m →
        CHECK_RESOURCE_ORDER_ON_RELEASE cfg res m = m.setResult E_OS_NOFUNC) ∧
    (¬ releaseOrderViolation res m → CHECK_RESOURCE_ORDER_ON_RELEASE cfg res m = m) ∧
    (((m.res res).owner ≠ none ∧ m.running.resources = some res) →
        CHECK_RESOURCE_ORDER_ON_RELEASE cfg res m = m) := by
  unfold CHECK_RESOURCE_ORDER_ON_RELEASE releaseOrderViolation
  simp only [hext, if_true]
  refine ⟨fun h => if_pos h, fun h => if_neg h, fun h => if_neg ?_⟩
  rintro ⟨-, h1 | h2⟩
  · exact h.1 h1
  · exact h2 h.2

/-- C2, instantiated: task 1, which holds resource 1 on top of its stack, may
release it, and is refused the release of resource 0, which nobody owns. -/
theorem C2_check_resource_order_on_release_witness :
    sampleConfig.OS_EXTENDED = true ∧
    (CHECK_RESOURCE_ORDER_ON_RELEASE sampleConfig 1 sampleMachineTask1).result = E_OK ∧
    (CHECK_RESOURCE_ORDER_ON_RELEASE sampleConfig 0 sampleMachineTask1).result
      = E_OS_NOFUNC := by
  refine ⟨rfl, ?_, ?_⟩
  · rw [(C2_check_resource_order_on_release sampleConfig 1 sampleMachineTask1 rfl).2.2
      (by decide)]
    rfl
  · rw [(C2_check_resource_order_on_release sampleConfig 0 sampleMachineTask1 rfl).1
      (by decide)]
    rfl

/-- C3. Under extended checking with no error pending,
`CHECK_RESOURCE_PRIO_ERROR_ON_RELEASE` yields `E_OS_ACCESS` if and only if the
base priority of the running object is strictly greater than the ceiling
priority of the resource, and leaves `E_OK` otherwise; in particular a running
object whose base priority equals the ceiling is accepted. -/
theorem C3_check_resource_prio_error_on_release (cfg : Config) (res : ResRef) (m : Machine)
    (hext : cfg.OS_EXTENDED = true) (hok : m.result = E_OK) :
    ((CHECK_RESOURCE_PRIO_ERROR_ON_RELEASE cfg res m).result = E_OS_ACCESS ↔
        (m.res res).ceiling_priority < m.running.static_desc.base_priority) ∧
    (¬ (m.res res).ceiling_priority < m.running.static_desc.base_priority →
        (CHECK_RESOURCE_PRIO_ERROR_ON_RELEASE cfg res m).result = E_OK) ∧
    (m.running.static_desc.base_priority = (m.res res).ceiling_priority →
        (CHECK_RESOURCE_PRIO_ERROR_ON_RELEASE cfg res m).result = E_OK) := by
  unfold CHECK_RESOURCE_PRIO_ERROR_ON_RELEASE
  simp only [hext, if_true, hok, true_and, gt_iff_lt]
  by_cases h : (m.res res).ceiling_priority < m.running.static_desc.base_priority
  · simp [h, Machine.setResult]
    omega
  · simp [h, hok]

/-- C3, instantiated: task 0 (base priority 1) is accepted on resource 0
(ceiling 1), task 1 (base priority 2) is refused on it. -/
theorem C3_check_resource_prio_error_on_release_witness :
    sampleConfig.OS_EXTENDED = true ∧ sampleMachine.result = E_OK ∧
    (CHECK_RESOURCE_PRIO_ERROR_ON_RELEASE sampleConfig 0 sampleMachine).result = E_OK ∧
    (CHECK_RESOURCE_PRIO_ERROR_ON_RELEASE sampleConfig 0 sampleMachineTask1).result
      = E_OS_ACCESS :=
  ⟨rfl, rfl,
    (C3_check_resource_prio_error_on_release sampleConfig 0 sampleMachine rfl rfl).2.2
      (by decide),
    (C3_check_resource_prio_error_on_release sampleConfig 0 sampleMachineTask1 rfl rfl).1.2
      (by decide)⟩

/-- C4. Under extended checking with tasks present and no error pending,
`CHECK_RUNNING_OWNS_REZ_ERROR` yields `E_OS_RESOURCE` if the held-resource
stack of the running object is not empty and leaves `E_OK` if it is empty;
when tasks are absent (`NO_TASK`) it leaves the state, hence the result,
untouched whatever the state and the other switches. -/
theorem C4_check_running_owns_rez_error (cfg : Config) (m : Machine) :
    (cfg.OS_EXTENDED = true → cfg.NO_TASK = false → m.result = E_OK →
      (m.running.resources ≠ none →
          (CHECK_RUNNING_OWNS_REZ_ERROR cfg m).result = E_OS_RESOURCE) ∧
      (m.running.resources = none →
          (CHECK_RUNNING_OWNS_REZ_ERROR cfg m).result = E_OK)) ∧
    (cfg.NO_TASK = true → CHECK_RUNNING_OWNS_REZ_ERROR cfg m = m) := by
  unfold CHECK_RUNNING_OWNS_REZ_ERROR
  refine ⟨fun hext htask hok => ⟨fun h => ?_, fun h => ?_⟩, fun h => ?_⟩
  · simp [hext, htask, hok, h, Machine.setResult]
  · simp [hext, htask, hok, h]
  · simp [h]

/-- C4, instantiated: task 1 holds resource 1 and may not terminate, task 0
holds nothing and may; without tasks nothing is reported. -/
theorem C4_check_running_owns_rez_error_witness :
    (CHECK_RUNNING_OWNS_REZ_ERROR sampleConfig sampleMachineTask1).result = E_OS_RESOURCE ∧
    (CHECK_RUNNING_OWNS_REZ_ERROR sampleConfig sampleMachine).result = E_OK ∧
    CHECK_RUNNING_OWNS_REZ_ERROR { sampleConfig with NO_TASK := true } sampleMachineTask1
      = sampleMachineTask1 :=
  ⟨((C4_check_running_owns_rez_error sampleConfig sampleMachineTask1).1 rfl rfl rfl).1
      (by decide),
    ((C4_check_running_owns_rez_error sampleConfig sampleMachine).1 rfl rfl rfl).2
      (by decide),
    (C4_check_running_owns_rez_error { sampleConfig with NO_TASK := true }
      sampleMachineTask1).2 rfl⟩

/-! ## Identifier validators -/

/-- With the object kind present, extended checking and no error pending, the
task identifier check reports exactly the identifiers at or above
`TASK_COUNT`: nothing is tested below. -/
theorem check_task_id_error_iff (cfg : Config) (task_id : Int) (m : Machine)
    (hext : cfg.OS_EXTENDED = true) (htask : cfg.NO_TASK = false) (hok : m.result = E_OK) :
    ((cfg.TASK_COUNT : Int) ≤ task_id →
        (CHECK_TASK_ID_ERROR cfg task_id m).result = E_OS_ID) ∧
    (task_id < (cfg.TASK_COUNT : Int) →
        (CHECK_TASK_ID_ERROR cfg task_id m).result = E_OK) := by
  unfold CHECK_TASK_ID_ERROR
  constructor
  · intro h
    simp [hext, htask, hok, h, Machine.setResult]
  · intro h
    simp [hext, htask, hok, not_le.mpr h]

/-- With the object kind present, extended checking and no error pending, the
alarm identifier check reports exactly the identifiers at or above
`ALARM_COUNT`: nothing is tested below. -/
theorem check_alarm_id_error_iff (cfg : Config) (alarm_id : Int) (m : Machine)
    (hext : cfg.OS_EXTENDED = true) (halarm : cfg.NO_ALARM = false) (hok : m.result = E_OK) :
    ((cfg.ALARM_COUNT : Int) ≤ alarm_id →
        (CHECK_ALARM_ID_ERROR cfg alarm_id m).result = E_OS_ID) ∧
    (alarm_id < (cfg.ALARM_COUNT : Int) →
        (CHECK_ALARM_ID_ERROR cfg alarm_id m).result = E_OK) := by
  unfold CHECK_ALARM_ID_ERROR
  constructor
  · intro h
    simp [hext, halarm, hok, h, Machine.setResult]
  · intro h
    simp [hext, halarm, hok, not_le.mpr h]

/-- C5, evaluated where it fails. In the sample build (extended checking,
three tasks, two alarms, no error pending) the identifier -1 lies outside
`[0, TASK_COUNT)` and outside `[0, ALARM_COUNT)`, yet `CHECK_TASK_ID_ERROR` and
`CHECK_ALARM_ID_ERROR` leave the result `E_OK`: only the upper bound is
tested, whereas `CHECK_RESOURCE_ID_ERROR` does test below its range. -/
theorem C5_check_id_error_below_zero :
    sampleConfig.OS_EXTENDED = true ∧ sampleConfig.NO_TASK = false ∧
    sampleConfig.NO_ALARM = false ∧ sampleMachine.result = E_OK ∧
    ¬ ((0 : Int) ≤ -1 ∧ (-1 : Int) < (sampleConfig.TASK_COUNT : Int)) ∧
    ¬ ((0 : Int) ≤ -1 ∧ (-1 : Int) < (sampleConfig.ALARM_COUNT : Int)) ∧
    (CHECK_TASK_ID_ERROR sampleConfig (-1) sampleMachine).result = E_OK ∧
    (CHECK_ALARM_ID_ERROR sampleConfig (-1) sampleMachine).result = E_OK ∧
    (CHECK_RESOURCE_ID_ERROR sampleConfig (-2) sampleMachine).result = E_OS_ID := by
  refine ⟨rfl, rfl, rfl, rfl, by decide, by decide, ?_, ?_, ?_⟩
  · simp [CHECK_TASK_ID_ERROR, sampleConfig, sampleMachine]
  · simp [CHECK_ALARM_ID_ERROR, sampleConfig, sampleMachine]
  · simp [CHECK_RESOURCE_ID_ERROR, sampleConfig, sampleMachine, Machine.setResult]

/-- C6. Under extended checking with resources present and no error pending,
`CHECK_RESOURCE_ID_ERROR` leaves the result `E_OK` exactly for `res_id = -1`
and for `res_id` in `[0, RES_COUNT)`, and yields `E_OS_ID` for every other
value, that is for `res_id >= RES_COUNT` and for `res_id < -1`. -/
theorem C6_check_resource_id_error (cfg : Config) (res_id : Int) (m : Machine)
    (hext : cfg.OS_EXTENDED = true) (hres : cfg.NO_RESOURCE = false)
    (hok : m.result = E_OK) :
    ((CHECK_RESOURCE_ID_ERROR cfg res_id m).result = E_OK ↔
        (res_id = -1 ∨ (0 ≤ res_id ∧ res_id < (cfg.RES_COUNT : Int)))) ∧
    ((CHECK_RESOURCE_ID_ERROR cfg res_id m).result = E_OS_ID ↔
        ((cfg.RES_COUNT : Int) ≤ res_id ∨ res_id < -1)) := by
  unfold CHECK_RESOURCE_ID_ERROR
  by_cases h : (cfg.RES_COUNT : Int) ≤ res_id ∨ res_id < -1
  · simp [hext, hres, hok, h, Machine.setResult]
    omega
  · simp [hext, hres, hok, h]
    omega

/-- C6, instantiated in the sample build (two resources): -1, 0 and 1 are
accepted, 2 and -2 are refused. -/
theorem C6_check_resource_id_error_witness :
    sampleConfig.OS_EXTENDED = true ∧ sampleConfig.NO_RESOURCE = false ∧
    sampleMachine.result = E_OK ∧
    (CHECK_RESOURCE_ID_ERROR sampleConfig (-1) sampleMachine).result = E_OK ∧
    (CHECK_RESOURCE_ID_ERROR sampleConfig 0 sampleMachine).result = E_OK ∧
    (CHECK_RESOURCE_ID_ERROR sampleConfig 1 sampleMachine).result = E_OK ∧
    (CHECK_RESOURCE_ID_ERROR sampleConfig 2 sampleMachine).result = E_OS_ID ∧
    (CHECK_RESOURCE_ID_ERROR sampleConfig (-2) sampleMachine).result = E_OS_ID :=
  ⟨rfl, rfl, rfl,
    (C6_check_resource_id_error sampleConfig (-1) sampleMachine rfl rfl rfl).1.2 (by decide),
    (C6_check_resource_id_error sampleConfig 0 sampleMachine rfl rfl rfl).1.2 (by decide),
    (C6_check_resource_id_error sampleConfig 1 sampleMachine rfl rfl rfl).1.2 (by decide),
    (C6_check_resource_id_error sampleConfig 2 sampleMachine rfl rfl rfl).2.2 (by decide),
    (C6_check_resource_id_error sampleConfig (-2) sampleMachine rfl rfl rfl).2.2 (by decide)⟩

/-- C7 as stated fails: with resources compiled out (`NO_RESOURCE`), extended
checking and no error pending, `CHECK_RESOURCE_ID_ERROR` does not report
`E_OS_ID` for the identifier -1; the result stays `E_OK`. -/
theorem C7_absent_kind_counterexample :
    sampleConfigNoObjects.OS_EXTENDED = true ∧ sampleConfigNoObjects.NO_RESOURCE = true ∧
    sampleMachine.result = E_OK ∧
    (CHECK_RESOURCE_ID_ERROR sampleConfigNoObjects (-1) sampleMachine).result ≠ E_OS_ID ∧
    (CHECK_RESOURCE_ID_ERROR sampleConfigNoObjects (-1) sampleMachine).result = E_OK := by
  refine ⟨rfl, rfl, rfl, ?_, ?_⟩ <;>
    simp [CHECK_RESOURCE_ID_ERROR, sampleConfigNoObjects, sampleConfig, sampleMachine]

/-- C7, amended. Under extended checking with no error pending: when tasks are
compiled out `CHECK_TASK_ID_ERROR` reports `E_OS_ID` for every identifier;
when alarms are compiled out `CHECK_ALARM_ID_ERROR` reports `E_OS_ID` for
every identifier; when resources are compiled out `CHECK_RESOURCE_ID_ERROR`
reports `E_OS_ID` for every identifier other than -1 and leaves the result
`E_OK` for -1. -/
theorem C7_absent_kind_amended (cfg : Config) (id : Int) (m : Machine)
    (hext : cfg.OS_EXTENDED = true) (hok : m.result = E_OK) :
    (cfg.NO_TASK = true → (CHECK_TASK_ID_ERROR cfg id m).result = E_OS_ID) ∧
    (cfg.NO_ALARM = true → (CHECK_ALARM_ID_ERROR cfg id m).result = E_OS_ID) ∧
    (cfg.NO_RESOURCE = true →
      (id ≠ -1 → (CHECK_RESOURCE_ID_ERROR cfg id m).result = E_OS_ID) ∧
      (id = -1 → (CHECK_RESOURCE_ID_ERROR cfg id m).result = E_OK)) := by
  refine ⟨fun h => ?_, fun h => ?_, fun h => ⟨fun hid => ?_, fun hid => ?_⟩⟩
  · simp [CHECK_TASK_ID_ERROR, hext, h, hok, Machine.setResult]
  · simp [CHECK_ALARM_ID_ERROR, hext, h, hok, Machine.setResult]
  · simp [CHECK_RESOURCE_ID_ERROR, hext, h, hok, hid, Machine.setResult]
  · simp [CHECK_RESOURCE_ID_ERROR, hext, h, hok, hid]

/-- C7 amended, instantiated: with no object kind in the build, identifier 0
(and for tasks and alarms also -1) is refused by the three checks. -/
theorem C7_absent_kind_amended_witness :
    sampleConfigNoObjects.OS_EXTENDED = true ∧ sampleMachine.result = E_OK ∧
    (CHECK_TASK_ID_ERROR sampleConfigNoObjects (-1) sampleMachine).result = E_OS_ID ∧
    (CHECK_ALARM_ID_ERROR sampleConfigNoObjects (-1) sampleMachine).result = E_OS_ID ∧
    (CHECK_RESOURCE_ID_ERROR sampleConfigNoObjects 0 sampleMachine).result = E_OS_ID :=
  ⟨rfl, rfl,
    (C7_absent_kind_amended sampleConfigNoObjects (-1) sampleMachine rfl rfl).1 rfl,
    (C7_absent_kind_amended sampleConfigNoObjects (-1) sampleMachine rfl rfl).2.1 rfl,
    ((C7_absent_kind_amended sampleConfigNoObjects 0 sampleMachine rfl rfl).2.2 rfl).1
      (by decide)⟩

/-! ## Error propagation -/

/-- A validator that tests `result == E_OK` leaves the state untouched when an
error is pending, in every build. -/
theorem Validator.run_of_error (cfg : Config) (v : Validator) (m : Machine)
    (h : m.result ≠ E_OK) : v.run cfg m = m := by
  cases v <;>
    simp only [Validator.run, CHECK_TASK_ID_ERROR, CHECK_ALARM_ID_ERROR,
      CHECK_RESOURCE_ID_ERROR, CHECK_TASK_CALL_LEVEL_ERROR, CHECK_RUNNING_OWNS_REZ_ERROR,
      CHECK_RESOURCE_PRIO_ERROR_ON_GET, CHECK_RESOURCE_PRIO_ERROR_ON_RELEASE,
      CHECK_RESOURCE_ORDER_ON_RELEASE, h, false_and, if_false, ite_self]

/-- Under extended checking with no error pending, a validator assigns its
code when the condition of its `if` holds and does nothing otherwise. -/
theorem Validator.run_of_ok (cfg : Config) (v : Validator) (m : Machine)
    (hext : cfg.OS_EXTENDED = true) (hok : m.result = E_OK) :
    v.run cfg m = if v.fires cfg m = true then m.setResult v.code else m := by
  cases v <;>
    simp only [Validator.run, Validator.fires, Validator.code, CHECK_TASK_ID_ERROR,
      CHECK_ALARM_ID_ERROR, CHECK_RESOURCE_ID_ERROR, CHECK_TASK_CALL_LEVEL_ERROR,
      CHECK_RUNNING_OWNS_REZ_ERROR, CHECK_RESOURCE_PRIO_ERROR_ON_GET,
      CHECK_RESOURCE_PRIO_ERROR_ON_RELEASE, CHECK_RESOURCE_ORDER_ON_RELEASE, hext, hok,
      true_and, if_true, decide_eq_true_eq] <;>
    split_ifs <;> simp_all <;> (exfalso; omega)

/-- The violation conditions do not read `result`. -/
theorem Validator.violated_setResult (cfg : Config) (v : Validator) (m : Machine)
    (c : tpl_status) : v.violated cfg (m.setResult c) = v.violated cfg m := by
  cases v <;> rfl

/-- The header tests the violation condition of the specification, except
below zero for task and alarm identifiers. -/
theorem Validator.fires_eq_violated (cfg : Config) (v : Validator) (m : Machine)
    (hid : v.idNotNegative) : v.fires cfg m = v.violated cfg m := by
  cases v with
  | taskId task_id =>
    simp only [Validator.idNotNegative] at hid
    by_cases h : cfg.NO_TASK = true
    · simp [Validator.fires, Validator.violated, h]
    · simp only [Validator.fires, Validator.violated, h, Bool.false_eq_true, if_false,
        false_or]
      rw [decide_eq_decide]
      omega
  | alarmId alarm_id =>
    simp only [Validator.idNotNegative] at hid
    by_cases h : cfg.NO_ALARM = true
    · simp [Validator.fires, Validator.violated, h]
    · simp only [Validator.fires, Validator.violated, h, Bool.false_eq_true, if_false,
        false_or]
      rw [decide_eq_decide]
      omega
  | resourceId res_id =>
    by_cases h : cfg.NO_RESOURCE = true
    · simp [Validator.fires, Validator.violated, h]
    · simp only [Validator.fires, Validator.violated, h, Bool.false_eq_true, if_false,
        false_or]
      rw [decide_eq_decide]
      omega
  | callLevel =>
    by_cases h : cfg.NO_TASK = true
    · simp [Validator.fires, Validator.violated, h]
    · simp [Validator.fires, Validator.violated, h]
  | runningOwnsRez =>
    by_cases h : cfg.NO_TASK = true
    · simp [Validator.fires, Validator.violated, h]
    · simp [Validator.fires, Validator.violated, h]
  | prioOnGet res => simp [Validator.fires, Validator.violated]
  | prioOnRelease res => simp [Validator.fires, Validator.violated]
  | orderOnRelease res => simp [Validator.fires, Validator.violated]

/-- No validator reports `E_OK`. -/
theorem Validator.code_ne_ok (v : Validator) : v.code ≠ E_OK := by
  cases v <;> simp [Validator.code]

/-- Once an error is pending, the rest of a pipeline changes nothing. -/
theorem runPipeline_of_error (cfg : Config) (vs : List Validator) (m : Machine)
    (h : m.result ≠ E_OK) : runPipeline cfg vs m = m := by
  induction vs with
  | nil => rfl
  | cons v vs ih =>
    simp only [runPipeline, List.foldl_cons] at ih ⊢
    rw [Validator.run_of_error cfg v m h]
    exact ih

/-- C8, evaluated where it fails. In the sample build (extended checking):
`CHECK_NOT_EXTENDED_RUNNING_ERROR` turns a pending `E_OS_CALLEVEL` into
`E_OS_ACCESS` when the running task 1 is a basic task;
`CHECK_NOT_EXTENDED_TASK_ERROR` does the same for the task identifier 1; and
`CHECK_SUSPENDED_TASK_ERROR` turns a pending `E_OS_ACCESS` into `E_OS_STATE`
for the suspended task 2. These three never test `result == E_OK`, so a
pending error is overwritten, whereas every other validator keeps it
(`Validator.run_of_error`). -/
theorem C8_pending_error_overwritten :
    sampleConfig.OS_EXTENDED = true ∧
    (sampleMachineTask1.setResult E_OS_CALLEVEL).result ≠ E_OK ∧
    (CHECK_NOT_EXTENDED_RUNNING_ERROR sampleConfig
      (sampleMachineTask1.setResult E_OS_CALLEVEL)).result = E_OS_ACCESS ∧
    Option.map Machine.result
      (CHECK_NOT_EXTENDED_TASK_ERROR sampleConfig 1 (sampleMachine.setResult E_OS_CALLEVEL))
      = some E_OS_ACCESS ∧
    Option.map Machine.result
      (CHECK_SUSPENDED_TASK_ERROR sampleConfig 2 (sampleMachine.setResult E_OS_ACCESS))
      = some E_OS_STATE := by
  refine ⟨rfl, by decide, ?_, ?_, ?_⟩
  · simp [CHECK_NOT_EXTENDED_RUNNING_ERROR, sampleConfig, sampleMachineTask1, sampleMachine,
      Machine.setResult]
  · simp [CHECK_NOT_EXTENDED_TASK_ERROR, Machine.task_at, sampleConfig, sampleMachine,
      Machine.setResult]
  · simp [CHECK_SUSPENDED_TASK_ERROR, Machine.task_at, sampleConfig, sampleMachine,
      Machine.setResult]

/-- Assigning `E_OK` to a `result` that is `E_OK` changes nothing. -/
theorem Machine.setResult_of_ok (m : Machine) (hok : m.result = E_OK) :
    m.setResult E_OK = m := by
  cases m
  simp only [Machine.setResult] at hok ⊢
  subst hok
  rfl

/-- Under extended checking, a sequence of validators taken among the
identifier, call level, still-holding and resource protocol checks, none of
which is given a negative task or alarm identifier, and run in order from
`E_OK`, ends with the code of the first validator of the sequence whose
violation condition holds in the current state, and with `E_OK` if none holds;
nothing but `result` has changed. -/
theorem runPipeline_first_violation (cfg : Config) (vs : List Validator) (m : Machine)
    (hext : cfg.OS_EXTENDED = true) (hok : m.result = E_OK)
    (hid : ∀ v ∈ vs, v.idNotNegative) :
    runPipeline cfg vs m = m.setResult (firstViolationCode cfg m vs) ∧
    (runPipeline cfg vs m).result = firstViolationCode cfg m vs := by
  have main : runPipeline cfg vs m = m.setResult (firstViolationCode cfg m vs) := by
    induction vs with
    | nil =>
      simp only [runPipeline, List.foldl_nil, firstViolationCode, List.find?_nil]
      exact (Machine.setResult_of_ok m hok).symm
    | cons v ws ih =>
      have ih2 := ih (fun w hw => hid w (List.mem_cons_of_mem v hw))
      have hv2 := Validator.fires_eq_violated cfg v m (hid v (List.mem_cons_self v ws))
      simp only [runPipeline, List.foldl_cons] at ih2 ⊢
      rw [Validator.run_of_ok cfg v m hext hok, hv2]
      by_cases hv : v.violated cfg m = true
      · have hne : (m.setResult v.code).result ≠ E_OK := Validator.code_ne_ok v
        have hrest := runPipeline_of_error cfg ws (m.setResult v.code) hne
        simp only [runPipeline] at hrest
        simp only [hv, if_true, hrest, firstViolationCode, List.find?_cons]
      · simp only [Bool.not_eq_true] at hv
        simp only [hv, Bool.false_eq_true, if_false, ih2, firstViolationCode, List.find?_cons]
  refine ⟨main, ?_⟩
  rw [main]
  rfl

/-- C9, evaluated where it fails. In the sample build (extended checking, three
tasks, two alarms, no error pending) the task identifier -1 lies outside
`[0, TASK_COUNT)`, so the task identifier check is the first violated
validator of the sequence "task identifier check, release order check", whose
second validator is violated too (resource 0 has no owner); the sequence should
end with `E_OS_ID` and ends with `E_OS_NOFUNC`, the code of the second. In the
same way "task identifier check, still-holding check" run by task 1, which
holds resource 1, ends with `E_OS_RESOURCE`, and "alarm identifier check,
acquire check" on the owned resource 1 ends with `E_OS_ACCESS`. With the
out-of-range resource identifier 5 the sequence "resource identifier check,
release order check" does end with `E_OS_ID`. -/
theorem C9_first_error_wins_below_zero :
    sampleConfig.OS_EXTENDED = true ∧ sampleMachine.result = E_OK ∧
    sampleMachineTask1.result = E_OK ∧
    (Validator.violated sampleConfig sampleMachine (.taskId (-1)) = true ∧
      Validator.violated sampleConfig sampleMachine (.orderOnRelease 0) = true ∧
      firstViolationCode sampleConfig sampleMachine [.taskId (-1), .orderOnRelease 0]
        = E_OS_ID ∧
      (runPipeline sampleConfig [.taskId (-1), .orderOnRelease 0] sampleMachine).result
        = E_OS_NOFUNC) ∧
    (firstViolationCode sampleConfig sampleMachineTask1 [.taskId (-1), .runningOwnsRez]
        = E_OS_ID ∧
      (runPipeline sampleConfig [.taskId (-1), .runningOwnsRez] sampleMachineTask1).result
        = E_OS_RESOURCE) ∧
    (firstViolationCode sampleConfig sampleMachine [.alarmId (-1), .prioOnGet 1]
        = E_OS_ID ∧
      (runPipeline sampleConfig [.alarmId (-1), .prioOnGet 1] sampleMachine).result
        = E_OS_ACCESS) ∧
    (firstViolationCode sampleConfig sampleMachine [.resourceId 5, .orderOnRelease 0]
        = E_OS_ID ∧
      (runPipeline sampleConfig [.resourceId 5, .orderOnRelease 0] sampleMachine).result
        = E_OS_ID) := by
  refine ⟨rfl, rfl, rfl, ⟨by decide, by decide, by decide, by decide⟩,
    ⟨by decide, by decide⟩, ⟨by decide, by decide⟩, ⟨by decide, by decide⟩⟩

/-- C10. Without extended checking, in every build, state, argument and
incoming result, each validator of the header (task, alarm and resource
identifier, call level, task class by identifier and of the running object,
suspended state, still-holding, acquire, release priority, release order)
leaves the state, hence the incoming result, unchanged; the two that index the
task table do not even read it. In particular `E_OK` stays `E_OK`. -/
theorem C10_non_extended_is_noop (cfg : Config) (m : Machine) (id : Int) (res : ResRef)
    (hext : cfg.OS_EXTENDED = false) :
    CHECK_TASK_ID_ERROR cfg id m = m ∧
    CHECK_ALARM_ID_ERROR cfg id m = m ∧
    CHECK_RESOURCE_ID_ERROR cfg id m = m ∧
    CHECK_TASK_CALL_LEVEL_ERROR cfg m = m ∧
    CHECK_NOT_EXTENDED_TASK_ERROR cfg id m = some m ∧
    CHECK_NOT_EXTENDED_RUNNING_ERROR cfg m = m ∧
    CHECK_SUSPENDED_TASK_ERROR cfg id m = some m ∧
    CHECK_RUNNING_OWNS_REZ_ERROR cfg m = m ∧
    CHECK_RESOURCE_PRIO_ERROR_ON_GET cfg res m = m ∧
    CHECK_RESOURCE_PRIO_ERROR_ON_RELEASE cfg res m = m ∧
    CHECK_RESOURCE_ORDER_ON_RELEASE cfg res m = m ∧
    (m.result = E_OK →
      (CHECK_TASK_ID_ERROR cfg id m).result = E_OK ∧
      (CHECK_RESOURCE_ORDER_ON_RELEASE cfg res m).result = E_OK) := by
  refine ⟨?_, ?_, ?_, ?_, ?_, ?_, ?_, ?_, ?_, ?_, ?_, ?_⟩
  · simp [CHECK_TASK_ID_ERROR, hext]
  · simp [CHECK_ALARM_ID_ERROR, hext]
  · simp [CHECK_RESOURCE_ID_ERROR, hext]
  · simp [CHECK_TASK_CALL_LEVEL_ERROR, hext]
  · simp [CHECK_NOT_EXTENDED_TASK_ERROR, hext]
  · simp [CHECK_NOT_EXTENDED_RUNNING_ERROR, hext]
  · simp [CHECK_SUSPENDED_TASK_ERROR, hext]
  · simp [CHECK_RUNNING_OWNS_REZ_ERROR, hext]
  · simp [CHECK_RESOURCE_PRIO_ERROR_ON_GET, hext]
  · simp [CHECK_RESOURCE_PRIO_ERROR_ON_RELEASE, hext]
  · simp [CHECK_RESOURCE_ORDER_ON_RELEASE, hext]
  · intro hok
    simp [CHECK_TASK_ID_ERROR, CHECK_RESOURCE_ORDER_ON_RELEASE, hext, hok]

/-- C10, instantiated in the sample build without extended checking: the
out-of-range identifiers 7 and -3 pass the task identifier check, the
suspended-state check does not read the table at index 7, and a pending
`E_OS_LIMIT` goes through the release order check. -/
theorem C10_non_extended_is_noop_witness :
    sampleConfigStandard.OS_EXTENDED = false ∧
    (CHECK_TASK_ID_ERROR sampleConfigStandard 7 sampleMachine).result = E_OK ∧
    (CHECK_TASK_ID_ERROR sampleConfigStandard (-3) sampleMachine).result = E_OK ∧
    Option.map Machine.result (CHECK_SUSPENDED_TASK_ERROR sampleConfigStandard 7 sampleMachine)
      = some E_OK ∧
    (CHECK_RESOURCE_ORDER_ON_RELEASE sampleConfigStandard 0
      (sampleMachine.setResult E_OS_LIMIT)).result = E_OS_LIMIT := by
  refine ⟨rfl, ?_, ?_, ?_, ?_⟩
  · rw [(C10_non_extended_is_noop sampleConfigStandard sampleMachine 7 0 rfl).1]
    rfl
  · rw [(C10_non_extended_is_noop sampleConfigStandard sampleMachine (-3) 0 rfl).1]
    rfl
  · rw [(C10_non_extended_is_noop sampleConfigStandard sampleMachine 7 0 rfl).2.2.2.2.2.2.1]
    rfl
  · rw [(C10_non_extended_is_noop sampleConfigStandard (sampleMachine.setResult E_OS_LIMIT)
      7 0 rfl).2.2.2.2.2.2.2.2.2.2.1]
    rfl

/-! ## Context and class validators -/

/-- C11. Under extended checking with no error pending,
`CHECK_TASK_CALL_LEVEL_ERROR` yields `E_OS_CALLEVEL` for every execution state
when the build has no task, and, when it has tasks, yields `E_OS_CALLEVEL` if
and only if `tpl_os_state` is not `OS_TASK` (the result stays `E_OK` at task
level). -/
theorem C11_check_task_call_level_error (cfg : Config) (m : Machine)
    (hext : cfg.OS_EXTENDED = true) (hok : m.result = E_OK) :
    (cfg.NO_TASK = true → (CHECK_TASK_CALL_LEVEL_ERROR cfg m).result = E_OS_CALLEVEL) ∧
    (cfg.NO_TASK = false →
      ((CHECK_TASK_CALL_LEVEL_ERROR cfg m).result = E_OS_CALLEVEL ↔
        m.tpl_os_state ≠ tpl_os_state_t.OS_TASK) ∧
      (m.tpl_os_state = tpl_os_state_t.OS_TASK →
        (CHECK_TASK_CALL_LEVEL_ERROR cfg m).result = E_OK)) := by
  unfold CHECK_TASK_CALL_LEVEL_ERROR
  refine ⟨fun h => ?_, fun h => ?_⟩
  · simp [hext, h, hok, Machine.setResult]
  · by_cases hs : m.tpl_os_state = tpl_os_state_t.OS_TASK
    · simp [hext, h, hok, hs]
    · simp [hext, h, hok, hs, Machine.setResult]

/-- C11, instantiated: in the sample build the check passes at task level and
fails in an interrupt routine; without tasks it fails at task level too. -/
theorem C11_check_task_call_level_error_witness :
    sampleConfig.OS_EXTENDED = true ∧ sampleMachine.result = E_OK ∧
    (CHECK_TASK_CALL_LEVEL_ERROR sampleConfig sampleMachine).result = E_OK ∧
    (CHECK_TASK_CALL_LEVEL_ERROR sampleConfig
      { sampleMachine with tpl_os_state := tpl_os_state_t.OS_ISR2 }).result = E_OS_CALLEVEL ∧
    (CHECK_TASK_CALL_LEVEL_ERROR sampleConfigNoObjects sampleMachine).result
      = E_OS_CALLEVEL :=
  ⟨rfl, rfl,
    ((C11_check_task_call_level_error sampleConfig sampleMachine rfl rfl).2 rfl).2 rfl,
    ((C11_check_task_call_level_error sampleConfig
      { sampleMachine with tpl_os_state := tpl_os_state_t.OS_ISR2 } rfl rfl).2 rfl).1.2
      (by decide),
    (C11_check_task_call_level_error sampleConfigNoObjects sampleMachine rfl rfl).1 rfl⟩

/-- C12. Under extended checking, `CHECK_NOT_EXTENDED_TASK_ERROR` for a task
identifier that designates the task `t` of the task table, and
`CHECK_NOT_EXTENDED_RUNNING_ERROR` for the running task, report `E_OS_ACCESS`
when the class of the task is not `EXTENDED_TASK` and leave the state, hence
the result, unchanged when it is `EXTENDED_TASK`. -/
theorem C12_check_not_extended_error (cfg : Config) (task_id : Int) (t : tpl_task)
    (m : Machine) (hext : cfg.OS_EXTENDED = true) (ht : m.task_at task_id = some t) :
    (t.exec_desc.static_desc.type ≠ tpl_exec_obj_type.EXTENDED_TASK →
      CHECK_NOT_EXTENDED_TASK_ERROR cfg task_id m = some (m.setResult E_OS_ACCESS)) ∧
    (t.exec_desc.static_desc.type = tpl_exec_obj_type.EXTENDED_TASK →
      CHECK_NOT_EXTENDED_TASK_ERROR cfg task_id m = some m) ∧
    (m.running.static_desc.type ≠ tpl_exec_obj_type.EXTENDED_TASK →
      CHECK_NOT_EXTENDED_RUNNING_ERROR cfg m = m.setResult E_OS_ACCESS) ∧
    (m.running.static_desc.type = tpl_exec_obj_type.EXTENDED_TASK →
      CHECK_NOT_EXTENDED_RUNNING_ERROR cfg m = m) := by
  unfold CHECK_NOT_EXTENDED_TASK_ERROR CHECK_NOT_EXTENDED_RUNNING_ERROR Machine.running
  refine ⟨fun h => ?_, fun h => ?_, fun h => ?_, fun h => ?_⟩
  · simp [hext, ht, h]
  · simp [hext, ht, h]
  · simp [hext, h]
  · simp [hext, h]

/-- C12, instantiated in the sample build: task 0 is extended, task 1 is
basic; task 0 runs in the first state and task 1 in the second. -/
theorem C12_check_not_extended_error_witness :
    sampleConfig.OS_EXTENDED = true ∧
    Option.map Machine.result (CHECK_NOT_EXTENDED_TASK_ERROR sampleConfig 1 sampleMachine)
      = some E_OS_ACCESS ∧
    Option.map Machine.result (CHECK_NOT_EXTENDED_TASK_ERROR sampleConfig 0 sampleMachine)
      = some E_OK ∧
    (CHECK_NOT_EXTENDED_RUNNING_ERROR sampleConfig sampleMachineTask1).result = E_OS_ACCESS ∧
    (CHECK_NOT_EXTENDED_RUNNING_ERROR sampleConfig sampleMachine).result = E_OK := by
  refine ⟨rfl, ?_, ?_, ?_, ?_⟩
  · rw [(C12_check_not_extended_error sampleConfig 1 (sampleMachine.task_mem 1)
      sampleMachine rfl rfl).1 (by decide)]
    rfl
  · rw [(C12_check_not_extended_error sampleConfig 0 (sampleMachine.task_mem 0)
      sampleMachine rfl rfl).2.1 (by decide)]
    rfl
  · rw [(C12_check_not_extended_error sampleConfig 1 (sampleMachine.task_mem 1)
      sampleMachineTask1 rfl rfl).2.2.1 (by decide)]
    rfl
  · rw [(C12_check_not_extended_error sampleConfig 0 (sampleMachine.task_mem 0)
      sampleMachine rfl rfl).2.2.2 (by decide)]
    rfl

/-- C13. Under extended checking, for every task identifier that designates a
task `t` of the task table, `CHECK_SUSPENDED_TASK_ERROR` reports `E_OS_STATE`
when the execution state of `t` is `SUSPENDED` and leaves the state, hence the
result, unchanged for every other execution state. -/
theorem C13_check_suspended_task_error (cfg : Config) (task_id : Int) (t : tpl_task)
    (m : Machine) (hext : cfg.OS_EXTENDED = true) (ht : m.task_at task_id = some t) :
    (t.exec_desc.state = tpl_exec_state.SUSPENDED →
      CHECK_SUSPENDED_TASK_ERROR cfg task_id m = some (m.setResult E_OS_STATE)) ∧
    (t.exec_desc.state ≠ tpl_exec_state.SUSPENDED →
      CHECK_SUSPENDED_TASK_ERROR cfg task_id m = some m) := by
  unfold CHECK_SUSPENDED_TASK_ERROR
  refine ⟨fun h => ?_, fun h => ?_⟩
  · simp [hext, ht, h]
  · simp [hext, ht, h]

/-- C13, instantiated in the sample build: task 2 is suspended, task 1 is
ready. -/
theorem C13_check_suspended_task_error_witness :
    sampleConfig.OS_EXTENDED = true ∧
    Option.map Machine.result (CHECK_SUSPENDED_TASK_ERROR sampleConfig 2 sampleMachine)
      = some E_OS_STATE ∧
    Option.map Machine.result (CHECK_SUSPENDED_TASK_ERROR sampleConfig 1 sampleMachine)
      = some E_OK := by
  refine ⟨rfl, ?_, ?_⟩
  · rw [(C13_check_suspended_task_error sampleConfig 2 (sampleMachine.task_mem 2)
      sampleMachine rfl rfl).1 (by decide)]
    rfl
  · rw [(C13_check_suspended_task_error sampleConfig 1 (sampleMachine.task_mem 1)
      sampleMachine rfl rfl).2 (by decide)]
    rfl

/-! ## Lock policies -/

/-- A call adds one acquisition when it is `tpl_get_task_lock`, none otherwise. -/
theorem Machine.acquisitions_call (m : Machine) (c : KernelCall) :
    (m.call c).acquisitions
      = m.acquisitions + (if c = KernelCall.tpl_get_task_lock then 1 else 0) := by
  simp only [Machine.acquisitions, Machine.call, List.count_append, List.count_singleton]
  by_cases h : c = KernelCall.tpl_get_task_lock
  · simp [h]
  · have h2 : ¬ KernelCall.tpl_get_task_lock = c := fun e => h e.symm
    simp [h, h2]

/-- A call adds one release when it is `tpl_release_task_lock`, none otherwise. -/
theorem Machine.releases_call (m : Machine) (c : KernelCall) :
    (m.call c).releases
      = m.releases + (if c = KernelCall.tpl_release_task_lock then 1 else 0) := by
  simp only [Machine.releases, Machine.call, List.count_append, List.count_singleton]
  by_cases h : c = KernelCall.tpl_release_task_lock
  · simp [h]
  · have h2 : ¬ KernelCall.tpl_release_task_lock = c := fun e => h e.symm
    simp [h, h2]

/-- C14 as stated fails: in the sample build without the error hook, a service
bracketed by `LOCK_WHEN_HOOK` and `UNLOCK_WHEN_HOOK` never takes the kernel
lock; in the sample build without tasks and resources, neither does a service
bracketed by `LOCK_WHEN_TASK`/`UNLOCK_WHEN_TASK` or by
`LOCK_WHEN_RESOURCE`/`UNLOCK_WHEN_RESOURCE`. -/
theorem C14_one_critical_section_counterexample :
    (bracketed (LOCK_WHEN_HOOK sampleConfigNoHook) (UNLOCK_WHEN_HOOK sampleConfigNoHook)
      (fun x => x) sampleMachine).acquisitions = 0 ∧
    (bracketed (LOCK_WHEN_HOOK sampleConfigNoHook) (UNLOCK_WHEN_HOOK sampleConfigNoHook)
      (fun x => x) sampleMachine).acquisitions ≠ 1 ∧
    (bracketed (LOCK_WHEN_HOOK sampleConfigNoHook) (UNLOCK_WHEN_HOOK sampleConfigNoHook)
      (fun x => x) sampleMachine).releases = 0 ∧
    (bracketed (LOCK_WHEN_TASK sampleConfigNoObjects) (UNLOCK_WHEN_TASK sampleConfigNoObjects)
      (fun x => x) sampleMachine).acquisitions = 0 ∧
    (bracketed (LOCK_WHEN_RESOURCE sampleConfigNoObjects)
      (UNLOCK_WHEN_RESOURCE sampleConfigNoObjects) (fun x => x) sampleMachine).acquisitions
      = 0 := by
  refine ⟨rfl, by decide, rfl, rfl, rfl⟩

/-- C14, amended. In every build, for a service body that does not touch the
lock itself: bracketed by `LOCK_WHEN_HOOK`/`UNLOCK_WHEN_HOOK` it takes and
releases the kernel lock exactly once when the error hook is enabled and not
at all when it is disabled; bracketed by `LOCK_WHEN_TASK`/`UNLOCK_WHEN_TASK`,
exactly once when the build has tasks and not at all under `NO_TASK`;
bracketed by `LOCK_WHEN_RESOURCE`/`UNLOCK_WHEN_RESOURCE`, exactly once when the
build has resources and not at all under `NO_RESOURCE`. No pair takes or
releases the lock twice, and each releases as often as it takes. -/
theorem C14_one_critical_section_amended (cfg : Config) (body : Machine → Machine)
    (m : Machine) (hbody : lockNeutral body) :
    ((bracketed (LOCK_WHEN_HOOK cfg) (UNLOCK_WHEN_HOOK cfg) body m).acquisitions
        = m.acquisitions + (if cfg.WITH_ERROR_HOOK = true then 1 else 0) ∧
      (bracketed (LOCK_WHEN_HOOK cfg) (UNLOCK_WHEN_HOOK cfg) body m).releases
        = m.releases + (if cfg.WITH_ERROR_HOOK = true then 1 else 0)) ∧
    ((bracketed (LOCK_WHEN_TASK cfg) (UNLOCK_WHEN_TASK cfg) body m).acquisitions
        = m.acquisitions + (if cfg.NO_TASK = true then 0 else 1) ∧
      (bracketed (LOCK_WHEN_TASK cfg) (UNLOCK_WHEN_TASK cfg) body m).releases
        = m.releases + (if cfg.NO_TASK = true then 0 else 1)) ∧
    ((bracketed (LOCK_WHEN_RESOURCE cfg) (UNLOCK_WHEN_RESOURCE cfg) body m).acquisitions
        = m.acquisitions + (if cfg.NO_RESOURCE = true then 0 else 1) ∧
      (bracketed (LOCK_WHEN_RESOURCE cfg) (UNLOCK_WHEN_RESOURCE cfg) body m).releases
        = m.releases + (if cfg.NO_RESOURCE = true then 0 else 1)) := by
  unfold bracketed LOCK_WHEN_HOOK UNLOCK_WHEN_HOOK LOCK_WHEN_TASK UNLOCK_WHEN_TASK
    LOCK_WHEN_RESOURCE UNLOCK_WHEN_RESOURCE
  refine ⟨⟨?_, ?_⟩, ⟨?_, ?_⟩, ⟨?_, ?_⟩⟩
  · by_cases h : cfg.WITH_ERROR_HOOK = true <;>
      simp [h, Machine.acquisitions_call, (hbody _).1]
  · by_cases h : cfg.WITH_ERROR_HOOK = true <;>
      simp [h, Machine.releases_call, (hbody _).2]
  · by_cases h : cfg.NO_TASK = true <;>
      simp [h, Machine.acquisitions_call, (hbody _).1]
  · by_cases h : cfg.NO_TASK = true <;>
      simp [h, Machine.releases_call, (hbody _).2]
  · by_cases h : cfg.NO_RESOURCE = true <;>
      simp [h, Machine.acquisitions_call, (hbody _).1]
  · by_cases h : cfg.NO_RESOURCE = true <;>
      simp [h, Machine.releases_call, (hbody _).2]

/-- C14 amended, instantiated in the sample build (hook, tasks and resources
present) with a body that sets `result`: each pair takes the lock once and
releases it once. -/
theorem C14_one_critical_section_amended_witness :
    lockNeutral (fun x => x.setResult E_OS_ID) ∧
    (bracketed (LOCK_WHEN_HOOK sampleConfig) (UNLOCK_WHEN_HOOK sampleConfig)
      (fun x => x.setResult E_OS_ID) sampleMachine).acquisitions = 1 ∧
    (bracketed (LOCK_WHEN_TASK sampleConfig) (UNLOCK_WHEN_TASK sampleConfig)
      (fun x => x.setResult E_OS_ID) sampleMachine).releases = 1 ∧
    (bracketed (LOCK_WHEN_RESOURCE sampleConfig) (UNLOCK_WHEN_RESOURCE sampleConfig)
      (fun x => x.setResult E_OS_ID) sampleMachine).acquisitions = 1 :=
  ⟨fun _ => ⟨rfl, rfl⟩,
    (C14_one_critical_section_amended sampleConfig (fun x => x.setResult E_OS_ID)
      sampleMachine (fun _ => ⟨rfl, rfl⟩)).1.1,
    (C14_one_critical_section_amended sampleConfig (fun x => x.setResult E_OS_ID)
      sampleMachine (fun _ => ⟨rfl, rfl⟩)).2.1.2,
    (C14_one_critical_section_amended sampleConfig (fun x => x.setResult E_OS_ID)
      sampleMachine (fun _ => ⟨rfl, rfl⟩)).2.2.1⟩

/-- C15. In every build exactly one of `LOCK_WHEN_HOOK` and `LOCK_WHEN_NO_HOOK`
takes the kernel lock, the first if and only if the error hook is enabled, the
second if and only if it is disabled; likewise exactly one of
`UNLOCK_WHEN_HOOK` and `UNLOCK_WHEN_NO_HOOK` releases it. Hence a service that
uses both pairs, with bodies that do not touch the lock themselves, takes the
lock exactly once and releases it exactly once in every build. -/
theorem C15_complementary_hook_locks (cfg : Config) (m : Machine) :
    (((LOCK_WHEN_HOOK cfg m).acquisitions = m.acquisitions + 1 ↔
        cfg.WITH_ERROR_HOOK = true) ∧
      ((LOCK_WHEN_NO_HOOK cfg m).acquisitions = m.acquisitions + 1 ↔
        cfg.WITH_ERROR_HOOK = false) ∧
      (cfg.WITH_ERROR_HOOK = false → LOCK_WHEN_HOOK cfg m = m) ∧
      (cfg.WITH_ERROR_HOOK = true → LOCK_WHEN_NO_HOOK cfg m = m)) ∧
    (((UNLOCK_WHEN_HOOK cfg m).releases = m.releases + 1 ↔
        cfg.WITH_ERROR_HOOK = true) ∧
      ((UNLOCK_WHEN_NO_HOOK cfg m).releases = m.releases + 1 ↔
        cfg.WITH_ERROR_HOOK = false) ∧
      (cfg.WITH_ERROR_HOOK = false → UNLOCK_WHEN_HOOK cfg m = m) ∧
      (cfg.WITH_ERROR_HOOK = true → UNLOCK_WHEN_NO_HOOK cfg m = m)) ∧
    (∀ b1 b2 b3 : Machine → Machine, lockNeutral b1 → lockNeutral b2 → lockNeutral b3 →
      (bracketed (LOCK_WHEN_HOOK cfg) (UNLOCK_WHEN_HOOK cfg)
        (fun x => b3 (bracketed (LOCK_WHEN_NO_HOOK cfg) (UNLOCK_WHEN_NO_HOOK cfg) b2 (b1 x)))
        m).acquisitions = m.acquisitions + 1 ∧
      (bracketed (LOCK_WHEN_HOOK cfg) (UNLOCK_WHEN_HOOK cfg)
        (fun x => b3 (bracketed (LOCK_WHEN_NO_HOOK cfg) (UNLOCK_WHEN_NO_HOOK cfg) b2 (b1 x)))
        m).releases = m.releases + 1) := by
  unfold bracketed LOCK_WHEN_HOOK UNLOCK_WHEN_HOOK LOCK_WHEN_NO_HOOK UNLOCK_WHEN_NO_HOOK
  by_cases h : cfg.WITH_ERROR_HOOK = true
  · refine ⟨?_, ?_, ?_⟩
    · simp [h, Machine.acquisitions_call]
    · simp [h, Machine.releases_call]
    · intro b1 b2 b3 h1 h2 h3
      simp [h, Machine.acquisitions_call, Machine.releases_call, (h1 _).1, (h1 _).2,
        (h2 _).1, (h2 _).2, (h3 _).1, (h3 _).2]
  · refine ⟨?_, ?_, ?_⟩
    · simp [h, Machine.acquisitions_call]
    · simp [h, Machine.releases_call]
    · intro b1 b2 b3 h1 h2 h3
      simp [h, Machine.acquisitions_call, Machine.releases_call, (h1 _).1, (h1 _).2,
        (h2 _).1, (h2 _).2, (h3 _).1, (h3 _).2]

/-- C15, instantiated: with and without the error hook, a service that uses
both pairs takes the lock once and releases it once. -/
theorem C15_complementary_hook_locks_witness :
    lockNeutral (fun x => x.setResult E_OS_ID) ∧
    (bracketed (LOCK_WHEN_HOOK sampleConfig) (UNLOCK_WHEN_HOOK sampleConfig)
      (fun x => (fun y => y.setResult E_OS_ID)
        (bracketed (LOCK_WHEN_NO_HOOK sampleConfig) (UNLOCK_WHEN_NO_HOOK sampleConfig)
          (fun y => y.setResult E_OS_ID) ((fun y => y.setResult E_OS_ID) x)))
      sampleMachine).acquisitions = sampleMachine.acquisitions + 1 ∧
    (bracketed (LOCK_WHEN_HOOK sampleConfigNoHook) (UNLOCK_WHEN_HOOK sampleConfigNoHook)
      (fun x => (fun y => y.setResult E_OS_ID)
        (bracketed (LOCK_WHEN_NO_HOOK sampleConfigNoHook)
          (UNLOCK_WHEN_NO_HOOK sampleConfigNoHook)
          (fun y => y.setResult E_OS_ID) ((fun y => y.setResult E_OS_ID) x)))
      sampleMachine).releases = sampleMachine.releases + 1 :=
  ⟨fun _ => ⟨rfl, rfl⟩,
    ((C15_complementary_hook_locks sampleConfig sampleMachine).2.2
      (fun y => y.setResult E_OS_ID) (fun y => y.setResult E_OS_ID)
      (fun y => y.setResult E_OS_ID)
      (fun _ => ⟨rfl, rfl⟩) (fun _ => ⟨rfl, rfl⟩) (fun _ => ⟨rfl, rfl⟩)).1,
    ((C15_complementary_hook_locks sampleConfigNoHook sampleMachine).2.2
      (fun y => y.setResult E_OS_ID) (fun y => y.setResult E_OS_ID)
      (fun y => y.setResult E_OS_ID)
      (fun _ => ⟨rfl, rfl⟩) (fun _ => ⟨rfl, rfl⟩) (fun _ => ⟨rfl, rfl⟩)).2⟩

/-! ## Diagnostic descriptor -/

/-- C16. With the error hook enabled, for every prior state and every value,
each recording operation followed by its documented accessor returns the value
recorded: `STORE_TASK_ID` with the five `_TaskID` accessors of ActivateTask,
ChainTask, GetTaskState, SetEvent and GetEvent; `STORE_RESOURCE_ID` with the
two `_ResID` accessors; `STORE_ALARM_ID` with the five `_AlarmID` accessors;
`STORE_TASK_STATE_REF` with `OSError_GetTaskState_State`; `STORE_TICK_1` with
`OSError_SetRelAlarm_increment` and `OSError_SetAbsAlarm_start`;
`STORE_TICK_2` with the two `_cycle` accessors; `STORE_TICK_REF` with
`OSError_GetAlarm_Tick`; `STORE_ALARM_BASE_REF` with
`OSError_GetAlarmBase_Info`; `STORE_EVENT_MASK` with the mask accessors of
SetEvent, ClearEvent and WaitEvent; `STORE_EVENT_MASK_REF` with the member
`mask_ref`. -/
theorem C16_record_read_round_trip (cfg : Config) (m : Machine) (id : Int) (r : Address)
    (t : Nat) (hhook : cfg.WITH_ERROR_HOOK = true) :
    (OSError_ActivateTask_TaskID (STORE_TASK_ID cfg id m) = some id ∧
      OSError_ChainTask_TaskID (STORE_TASK_ID cfg id m) = some id ∧
      OSError_GetTaskState_TaskID (STORE_TASK_ID cfg id m) = some id ∧
      OSError_SetEvent_TaskID (STORE_TASK_ID cfg id m) = some id ∧
      OSError_GetEvent_TaskID (STORE_TASK_ID cfg id m) = some id) ∧
    (OSError_GetResource_ResID (STORE_RESOURCE_ID cfg id m) = some id ∧
      OSError_ReleaseResource_ResID (STORE_RESOURCE_ID cfg id m) = some id) ∧
    (OSError_GetAlarmBase_AlarmID (STORE_ALARM_ID cfg id m) = some id ∧
      OSError_GetAlarm_AlarmID (STORE_ALARM_ID cfg id m) = some id ∧
      OSError_SetRelAlarm_AlarmID (STORE_ALARM_ID cfg id m) = some id ∧
      OSError_SetAbsAlarm_AlarmID (STORE_ALARM_ID cfg id m) = some id ∧
      OSError_CancelAlarm_AlarmID (STORE_ALARM_ID cfg id m) = some id) ∧
    OSError_GetTaskState_State (STORE_TASK_STATE_REF cfg r m) = some r ∧
    (OSError_SetRelAlarm_increment (STORE_TICK_1 cfg t m) = some t ∧
      OSError_SetAbsAlarm_start (STORE_TICK_1 cfg t m) = some t) ∧
    (OSError_SetRelAlarm_cycle (STORE_TICK_2 cfg t m) = t ∧
      OSError_SetAbsAlarm_cycle (STORE_TICK_2 cfg t m) = t) ∧
    OSError_GetAlarm_Tick (STORE_TICK_REF cfg r m) = some r ∧
    OSError_GetAlarmBase_Info (STORE_ALARM_BASE_REF cfg r m) = some r ∧
    (OSError_SetEvent_Mask (STORE_EVENT_MASK cfg t m) = some t ∧
      OSError_ClearEvent_Mask (STORE_EVENT_MASK cfg t m) = some t ∧
      OSError_WaitEvent_Mask (STORE_EVENT_MASK cfg t m) = some t) ∧
    (STORE_EVENT_MASK_REF cfg r m).tpl_service.parameters.param.get_mask_ref = some r := by
  simp only [STORE_TASK_ID, STORE_RESOURCE_ID, STORE_ALARM_ID, STORE_TASK_STATE_REF,
    STORE_TICK_1, STORE_TICK_2, STORE_TICK_REF, STORE_ALARM_BASE_REF, STORE_EVENT_MASK,
    STORE_EVENT_MASK_REF, hhook, if_true, Machine.setId, Machine.setParam]
  refine ⟨⟨?_, ?_, ?_, ?_, ?_⟩, ⟨?_, ?_⟩, ⟨?_, ?_, ?_, ?_, ?_⟩, ?_, ⟨?_, ?_⟩, ⟨?_, ?_⟩, ?_, ?_,
    ⟨?_, ?_, ?_⟩, ?_⟩ <;> rfl

/-- C16, instantiated in the sample build: a task identifier, a tick and a
cycle recorded for SetRelAlarm-like calls are read back. -/
theorem C16_record_read_round_trip_witness :
    sampleConfig.WITH_ERROR_HOOK = true ∧
    OSError_ActivateTask_TaskID (STORE_TASK_ID sampleConfig 2 sampleMachine) = some 2 ∧
    OSError_SetRelAlarm_increment (STORE_TICK_1 sampleConfig 50 sampleMachine) = some 50 ∧
    OSError_SetAbsAlarm_cycle (STORE_TICK_2 sampleConfig 50 sampleMachine) = 50 :=
  ⟨rfl,
    (C16_record_read_round_trip sampleConfig sampleMachine 2 0 50 rfl).1.1,
    (C16_record_read_round_trip sampleConfig sampleMachine 2 0 50 rfl).2.2.2.2.1.1,
    (C16_record_read_round_trip sampleConfig sampleMachine 2 0 50 rfl).2.2.2.2.2.1.2⟩

/-- `STORE_TASK_ID_REF` changes nothing, with or without the error hook. -/
theorem store_task_id_ref_unchanged (cfg : Config) (r : Address) (m : Machine) :
    STORE_TASK_ID_REF cfg r m = m := by
  simp [STORE_TASK_ID_REF]

/-- C17, evaluated where it fails. In the sample build (error hook enabled),
with a descriptor that holds the task identifier reference 7,
`STORE_TASK_ID_REF(9)` leaves the state as it is and
`OSError_GetTaskID_TaskID()` still returns 7, not 9; after a
`STORE_TASK_ID(3)` the member read holds no reference at all. -/
theorem C17_store_task_id_ref_stores_nothing :
    sampleConfig.WITH_ERROR_HOOK = true ∧
    OSError_GetTaskID_TaskID sampleMachine = some 7 ∧
    (STORE_TASK_ID_REF sampleConfig 9 sampleMachine).tpl_service = sampleMachine.tpl_service ∧
    OSError_GetTaskID_TaskID (STORE_TASK_ID_REF sampleConfig 9 sampleMachine) = some 7 ∧
    OSError_GetTaskID_TaskID (STORE_TASK_ID_REF sampleConfig 9 sampleMachine) ≠ some 9 ∧
    OSError_GetTaskID_TaskID
      (STORE_TASK_ID_REF sampleConfig 9 (STORE_TASK_ID sampleConfig 3 sampleMachine))
      ≠ some 9 := by
  refine ⟨rfl, rfl, rfl, rfl, by decide, by decide⟩

/-- C18. The 26 `OSServiceId_*` constants are exactly the integers 1 to 26 in
the order of the file, hence pairwise distinct and within the range of the
`unsigned char` member `service_id`; with the error hook enabled, for each of
them `STORE_SERVICE` followed by `OSErrorGetServiceId()` returns it, and two
services whose recorded identifiers read equal are the same. -/
theorem C18_service_id_round_trip (cfg : Config) (m : Machine)
    (hhook : cfg.WITH_ERROR_HOOK = true) :
    allServiceIds = List.range' 1 26 ∧
    allServiceIds.length = 26 ∧
    allServiceIds.Nodup ∧
    (∀ s ∈ allServiceIds, 1 ≤ s ∧ s ≤ 26 ∧ s < 256) ∧
    (∀ s ∈ allServiceIds, OSErrorGetServiceId (STORE_SERVICE cfg s m) = s) ∧
    (∀ s ∈ allServiceIds, ∀ s2 ∈ allServiceIds,
      OSErrorGetServiceId (STORE_SERVICE cfg s m) = OSErrorGetServiceId (STORE_SERVICE cfg s2 m)
        → s = s2) := by
  have hlist : allServiceIds = List.range' 1 26 := by decide
  have hbound : ∀ s ∈ allServiceIds, 1 ≤ s ∧ s ≤ 26 ∧ s < 256 := by
    intro s hs
    rw [hlist, List.mem_range'_1] at hs
    omega
  have hread : ∀ s ∈ allServiceIds, OSErrorGetServiceId (STORE_SERVICE cfg s m) = s := by
    intro s hs
    have hlt := (hbound s hs).2.2
    simp only [STORE_SERVICE, hhook, if_true, OSErrorGetServiceId]
    exact Nat.mod_eq_of_lt hlt
  refine ⟨hlist, by decide, ?_, hbound, hread, ?_⟩
  · rw [hlist]
    exact List.nodup_range' 1 26
  · intro s hs s2 hs2 h
    rw [hread s hs, hread s2 hs2] at h
    exact h

/-- C18, instantiated in the sample build: recording `OSServiceId_SetRelAlarm`
reads back 21. -/
theorem C18_service_id_round_trip_witness :
    sampleConfig.WITH_ERROR_HOOK = true ∧
    OSErrorGetServiceId (STORE_SERVICE sampleConfig OSServiceId_SetRelAlarm sampleMachine)
      = 21 :=
  ⟨rfl,
    (C18_service_id_round_trip sampleConfig sampleMachine rfl).2.2.2.2.1
      OSServiceId_SetRelAlarm (by decide)⟩

/-! ## Error hook dispatch -/

/-- C19. With the error hook enabled, for every error code `c`,
`PROCESS_ERROR(c)` calls `tpl_call_error_hook` exactly once, with argument
`c`, when `c` is not `E_OK` (this call is the only thing added to the state),
and does nothing at all when `c` is `E_OK`; in both cases the variable
`result` of the caller is what it was, so that after `PROCESS_ERROR(result)`
the caller still holds the same code. -/
theorem C19_process_error (cfg : Config) (c : tpl_status) (m : Machine)
    (hhook : cfg.WITH_ERROR_HOOK = true) :
    (c ≠ E_OK →
      PROCESS_ERROR cfg c m = m.call (.tpl_call_error_hook c) ∧
      (PROCESS_ERROR cfg c m).calls = m.calls ++ [.tpl_call_error_hook c] ∧
      (PROCESS_ERROR cfg c m).hookCalls c = m.hookCalls c + 1 ∧
      (∀ c2 : tpl_status, c2 ≠ c → (PROCESS_ERROR cfg c m).hookCalls c2 = m.hookCalls c2)) ∧
    (c = E_OK →
      PROCESS_ERROR cfg c m = m ∧
      (∀ c2 : tpl_status, (PROCESS_ERROR cfg c m).hookCalls c2 = m.hookCalls c2)) ∧
    (PROCESS_ERROR cfg c m).result = m.result ∧
    (PROCESS_ERROR cfg m.result m).result = m.result := by
  unfold PROCESS_ERROR
  refine ⟨fun h => ?_, fun h => ?_, ?_, ?_⟩
  · simp only [hhook, if_true, ne_eq, h, not_false_eq_true, Machine.call, Machine.hookCalls,
      List.count_append, List.count_singleton, true_and]
    refine ⟨?_, ?_⟩
    · simp
    · intro c2 hc2
      have h2 : ¬ KernelCall.tpl_call_error_hook c = KernelCall.tpl_call_error_hook c2 := by
        intro e
        injection e with e
        exact hc2 e.symm
      simp [h2]
  · simp [hhook, h]
  · simp only [hhook, if_true]
    split_ifs <;> rfl
  · simp only [hhook, if_true]
    split_ifs <;> rfl

/-- C19, instantiated in the sample build: `PROCESS_ERROR(E_OS_ID)` calls the
hook once with `E_OS_ID`, `PROCESS_ERROR(E_OK)` calls nothing. -/
theorem C19_process_error_witness :
    sampleConfig.WITH_ERROR_HOOK = true ∧
    (PROCESS_ERROR sampleConfig E_OS_ID sampleMachine).calls
      = [KernelCall.tpl_call_error_hook E_OS_ID] ∧
    (PROCESS_ERROR sampleConfig E_OK sampleMachine).calls = [] :=
  ⟨rfl,
    ((C19_process_error sampleConfig E_OS_ID sampleMachine rfl).1 (by decide)).2.1,
    congrArg Machine.calls
      ((C19_process_error sampleConfig E_OK sampleMachine rfl).2.1 rfl).1⟩

/-- C20. With the error hook disabled, for every argument and every state,
each of the twelve recording operations leaves the whole state unchanged, and
`PROCESS_ERROR(c)` leaves it unchanged too for every code `c`, `E_OK` or not:
no call to `tpl_call_error_hook` is made. -/
theorem C20_diagnostic_isolation (cfg : Config) (m : Machine) (service t : Nat) (id : Int)
    (r : Address) (c : tpl_status) (hhook : cfg.WITH_ERROR_HOOK = false) :
    STORE_SERVICE cfg service m = m ∧
    STORE_TASK_ID cfg id m = m ∧
    STORE_TASK_ID_REF cfg r m = m ∧
    STORE_TASK_STATE_REF cfg r m = m ∧
    STORE_RESOURCE_ID cfg id m = m ∧
    STORE_ALARM_ID cfg id m = m ∧
    STORE_ALARM_BASE_REF cfg r m = m ∧
    STORE_TICK_REF cfg r m = m ∧
    STORE_TICK_1 cfg t m = m ∧
    STORE_TICK_2 cfg t m = m ∧
    STORE_EVENT_MASK cfg t m = m ∧
    STORE_EVENT_MASK_REF cfg r m = m ∧
    PROCESS_ERROR cfg c m = m ∧
    (PROCESS_ERROR cfg c m).calls = m.calls ∧
    (∀ c2 : tpl_status, (PROCESS_ERROR cfg c m).hookCalls c2 = m.hookCalls c2) := by
  simp [STORE_SERVICE, STORE_TASK_ID, STORE_TASK_ID_REF, STORE_TASK_STATE_REF,
    STORE_RESOURCE_ID, STORE_ALARM_ID, STORE_ALARM_BASE_REF, STORE_TICK_REF, STORE_TICK_1,
    STORE_TICK_2, STORE_EVENT_MASK, STORE_EVENT_MASK_REF, PROCESS_ERROR, hhook]

/-- C20, instantiated in the sample build without the error hook: recording a
service identifier leaves the descriptor as it was and `PROCESS_ERROR` with
`E_OS_ACCESS` calls nothing. -/
theorem C20_diagnostic_isolation_witness :
    sampleConfigNoHook.WITH_ERROR_HOOK = false ∧
    OSErrorGetServiceId (STORE_SERVICE sampleConfigNoHook OSServiceId_GetResource sampleMachine)
      = OSErrorGetServiceId sampleMachine ∧
    (PROCESS_ERROR sampleConfigNoHook E_OS_ACCESS sampleMachine).calls = [] :=
  ⟨rfl,
    congrArg OSErrorGetServiceId
      (C20_diagnostic_isolation sampleConfigNoHook sampleMachine OSServiceId_GetResource 0 0 0
        E_OS_ACCESS rfl).1,
    (C20_diagnostic_isolation sampleConfigNoHook sampleMachine OSServiceId_GetResource 0 0 0
      E_OS_ACCESS rfl).2.2.2.2.2.2.2.2.2.2.2.2.2.1⟩

/-- Two recording operations of a SetRelAlarm call commute: they write
different slots of the descriptor. -/
theorem RecordOp.run_comm (cfg : Config) (a : Int) (t c : Nat) (x y : RecordOp)
    (hx : x ∈ [RecordOp.service OSServiceId_SetRelAlarm, .alarmId a, .tick1 t, .tick2 c])
    (hy : y ∈ [RecordOp.service OSServiceId_SetRelAlarm, .alarmId a, .tick1 t, .tick2 c])
    (z : Machine) : y.run cfg (x.run cfg z) = x.run cfg (y.run cfg z) := by
  simp only [List.mem_cons, List.mem_singleton, List.not_mem_nil, or_false] at hx hy
  by_cases hhook : cfg.WITH_ERROR_HOOK = true
  · rcases hx with rfl | rfl | rfl | rfl <;> rcases hy with rfl | rfl | rfl | rfl <;>
      simp only [RecordOp.run, STORE_SERVICE, STORE_ALARM_ID, STORE_TICK_1, STORE_TICK_2,
        Machine.setId, Machine.setParam, hhook, if_true]
  · simp only [Bool.not_eq_true] at hhook
    rcases hx with rfl | rfl | rfl | rfl <;> rcases hy with rfl | rfl | rfl | rfl <;>
      simp only [RecordOp.run, STORE_SERVICE, STORE_ALARM_ID, STORE_TICK_1, STORE_TICK_2,
        hhook, Bool.false_eq_true, if_false]

/-- C21. With the error hook enabled, the four slots of the descriptor
(service identifier, identifier union, parameter union, cycle) are written
independently: `STORE_SERVICE` leaves the parameters unchanged, each
identifier recording leaves the service identifier, the parameter union and
the cycle unchanged, each parameter recording leaves the service identifier,
the identifier union and the cycle unchanged, and `STORE_TICK_2` leaves the
service identifier and both unions unchanged. Consequently, after
`STORE_SERVICE(OSServiceId_SetRelAlarm)`, `STORE_ALARM_ID(a)`,
`STORE_TICK_1(t)` and `STORE_TICK_2(c)` performed in any order,
`OSErrorGetServiceId()` is 21, `OSError_SetRelAlarm_AlarmID()` is `a`,
`OSError_SetRelAlarm_increment()` is `t` and `OSError_SetRelAlarm_cycle()` is
`c`, all at once. -/
theorem C21_descriptor_field_independence (cfg : Config) (m : Machine)
    (hhook : cfg.WITH_ERROR_HOOK = true) :
    (∀ s : Nat, (STORE_SERVICE cfg s m).tpl_service.parameters = m.tpl_service.parameters) ∧
    (∀ (id : Int) (r : Address) (n : Machine),
      n ∈ [STORE_TASK_ID cfg id m, STORE_TASK_ID_REF cfg r m, STORE_RESOURCE_ID cfg id m,
        STORE_ALARM_ID cfg id m] →
      n.tpl_service.service_id = m.tpl_service.service_id ∧
      n.tpl_service.parameters.param = m.tpl_service.parameters.param ∧
      n.tpl_service.parameters.cycle = m.tpl_service.parameters.cycle) ∧
    (∀ (t : Nat) (r : Address) (n : Machine),
      n ∈ [STORE_TASK_STATE_REF cfg r m, STORE_ALARM_BASE_REF cfg r m, STORE_TICK_REF cfg r m,
        STORE_TICK_1 cfg t m, STORE_EVENT_MASK cfg t m, STORE_EVENT_MASK_REF cfg r m] →
      n.tpl_service.service_id = m.tpl_service.service_id ∧
      n.tpl_service.parameters.id = m.tpl_service.parameters.id ∧
      n.tpl_service.parameters.cycle = m.tpl_service.parameters.cycle) ∧
    (∀ t : Nat,
      (STORE_TICK_2 cfg t m).tpl_service.service_id = m.tpl_service.service_id ∧
      (STORE_TICK_2 cfg t m).tpl_service.parameters.id = m.tpl_service.parameters.id ∧
      (STORE_TICK_2 cfg t m).tpl_service.parameters.param = m.tpl_service.parameters.param) ∧
    (∀ (a : Int) (t c : Nat) (ops : List RecordOp),
      ops.Perm [.service OSServiceId_SetRelAlarm, .alarmId a, .tick1 t, .tick2 c] →
      OSErrorGetServiceId (record cfg ops m) = 21 ∧
      OSError_SetRelAlarm_AlarmID (record cfg ops m) = some a ∧
      OSError_SetRelAlarm_increment (record cfg ops m) = some t ∧
      OSError_SetRelAlarm_cycle (record cfg ops m) = c) := by
  refine ⟨fun s => ?_, fun id r n hn => ?_, fun t r n hn => ?_, fun t => ?_,
    fun a t c ops hperm => ?_⟩
  · simp [STORE_SERVICE, hhook]
  · simp only [List.mem_cons, List.mem_singleton, List.not_mem_nil, or_false] at hn
    rcases hn with rfl | rfl | rfl | rfl <;>
      simp [STORE_TASK_ID, STORE_TASK_ID_REF, STORE_RESOURCE_ID, STORE_ALARM_ID,
        Machine.setId, hhook]
  · simp only [List.mem_cons, List.mem_singleton, List.not_mem_nil, or_false] at hn
    rcases hn with rfl | rfl | rfl | rfl | rfl | rfl <;>
      simp [STORE_TASK_STATE_REF, STORE_ALARM_BASE_REF, STORE_TICK_REF, STORE_TICK_1,
        STORE_EVENT_MASK, STORE_EVENT_MASK_REF, Machine.setParam, hhook]
  · simp [STORE_TICK_2, hhook]
  · have hcanon : record cfg ops m
        = record cfg [.service OSServiceId_SetRelAlarm, .alarmId a, .tick1 t, .tick2 c] m := by
      unfold record
      exact (List.Perm.foldl_eq' hperm.symm
        (fun x hx y hy z => RecordOp.run_comm cfg a t c x y hx hy z) m).symm
    rw [hcanon]
    simp only [record, List.foldl_cons, List.foldl_nil, RecordOp.run, STORE_SERVICE,
      STORE_ALARM_ID, STORE_TICK_1, STORE_TICK_2, Machine.setId, Machine.setParam, hhook,
      if_true, OSErrorGetServiceId, OSError_SetRelAlarm_AlarmID,
      OSError_SetRelAlarm_increment, OSError_SetRelAlarm_cycle, OSServiceId_SetRelAlarm,
      ID_PARAM_BLOCK.get_alarm_id, PARAM_PARAM_BLOCK.get_tick]
    simp

/-- C21, instantiated in the sample build: the cycle recorded first, then the
alarm identifier, the service and the increment; the four reads hold. -/
theorem C21_descriptor_field_independence_witness :
    sampleConfig.WITH_ERROR_HOOK = true ∧
    OSErrorGetServiceId (record sampleConfig
      [.tick2 100, .alarmId 1, .service OSServiceId_SetRelAlarm, .tick1 5] sampleMachine)
      = 21 ∧
    OSError_SetRelAlarm_AlarmID (record sampleConfig
      [.tick2 100, .alarmId 1, .service OSServiceId_SetRelAlarm, .tick1 5] sampleMachine)
      = some 1 ∧
    OSError_SetRelAlarm_increment (record sampleConfig
      [.tick2 100, .alarmId 1, .service OSServiceId_SetRelAlarm, .tick1 5] sampleMachine)
      = some 5 ∧
    OSError_SetRelAlarm_cycle (record sampleConfig
      [.tick2 100, .alarmId 1, .service OSServiceId_SetRelAlarm, .tick1 5] sampleMachine)
      = 100 :=
  ⟨rfl,
    (C21_descriptor_field_independence sampleConfig sampleMachine rfl).2.2.2.2 1 5 100
      [.tick2 100, .alarmId 1, .service OSServiceId_SetRelAlarm, .tick1 5] (by decide)⟩

/-! ## Frame and monotonicity of the validators -/

/-- A validator that tests `result == E_OK` either does nothing or assigns its
code to `result`, in every build. -/
theorem Validator.run_cases (cfg : Config) (v : Validator) (m : Machine) :
    v.run cfg m = m ∨ v.run cfg m = m.setResult v.code := by
  cases v <;>
    simp only [Validator.run, Validator.code, CHECK_TASK_ID_ERROR, CHECK_ALARM_ID_ERROR,
      CHECK_RESOURCE_ID_ERROR, CHECK_TASK_CALL_LEVEL_ERROR, CHECK_RUNNING_OWNS_REZ_ERROR,
      CHECK_RESOURCE_PRIO_ERROR_ON_GET, CHECK_RESOURCE_PRIO_ERROR_ON_RELEASE,
      CHECK_RESOURCE_ORDER_ON_RELEASE] <;>
    split_ifs <;> simp

/-- A check that returns either did nothing or assigned its code to `result`,
in every build. -/
theorem Check.run_outcome (cfg : Config) (c : Check) (m n : Machine)
    (h : c.run cfg m = some n) : n = m ∨ n = m.setResult c.code := by
  cases c with
  | guarded v =>
    simp only [Check.run, Option.some.injEq] at h
    subst h
    exact Validator.run_cases cfg v m
  | notExtendedTask task_id =>
    simp only [Check.run, CHECK_NOT_EXTENDED_TASK_ERROR] at h
    split_ifs at h
    · cases ht : m.task_at task_id with
      | none => simp [ht] at h
      | some t =>
        simp only [ht, Option.some.injEq] at h
        subst h
        split_ifs <;> simp [Check.code]
    · simp only [Option.some.injEq] at h
      exact Or.inl h.symm
  | notExtendedRunning =>
    simp only [Check.run, CHECK_NOT_EXTENDED_RUNNING_ERROR, Option.some.injEq] at h
    subst h
    split_ifs <;> simp [Check.code]
  | suspendedTask task_id =>
    simp only [Check.run, CHECK_SUSPENDED_TASK_ERROR] at h
    split_ifs at h
    · cases ht : m.task_at task_id with
      | none => simp [ht] at h
      | some t =>
        simp only [ht, Option.some.injEq] at h
        subst h
        split_ifs <;> simp [Check.code]
    · simp only [Option.some.injEq] at h
      exact Or.inl h.symm

/-- No check reports `E_OK`. -/
theorem Check.code_not_ok (c : Check) : c.code ≠ E_OK := by
  cases c with
  | guarded v => exact Validator.code_ne_ok v
  | notExtendedTask _ => simp [Check.code]
  | notExtendedRunning => simp [Check.code]
  | suspendedTask _ => simp [Check.code]

/-- A check that returns changes nothing but `result`. -/
theorem Check.run_sameKernel (cfg : Config) (c : Check) (m n : Machine)
    (h : c.run cfg m = some n) : m.sameKernel n := by
  rcases Check.run_outcome cfg c m n h with rfl | rfl
  · exact ⟨rfl, rfl, rfl, rfl, rfl, rfl, rfl⟩
  · exact ⟨rfl, rfl, rfl, rfl, rfl, rfl, rfl⟩

/-- C22. In every build, state and incoming result, every validator changes at
most `result`: the execution state of the system, the running object, the
task table, the task descriptors (class, execution state, held-resource
stack), the resource descriptors (owner, ceiling), the diagnostic descriptor
and the calls made are the same before and after, whether the validation
passes or fails. The nine validators that do not index the task table always
return; the two that do return whenever the identifier is an index of the
table. -/
theorem C22_validators_are_pure (cfg : Config) (m : Machine) (id : Int) (res : ResRef) :
    m.sameKernel (CHECK_TASK_ID_ERROR cfg id m) ∧
    m.sameKernel (CHECK_ALARM_ID_ERROR cfg id m) ∧
    m.sameKernel (CHECK_RESOURCE_ID_ERROR cfg id m) ∧
    m.sameKernel (CHECK_TASK_CALL_LEVEL_ERROR cfg m) ∧
    m.sameKernel (CHECK_NOT_EXTENDED_RUNNING_ERROR cfg m) ∧
    m.sameKernel (CHECK_RUNNING_OWNS_REZ_ERROR cfg m) ∧
    m.sameKernel (CHECK_RESOURCE_PRIO_ERROR_ON_GET cfg res m) ∧
    m.sameKernel (CHECK_RESOURCE_PRIO_ERROR_ON_RELEASE cfg res m) ∧
    m.sameKernel (CHECK_RESOURCE_ORDER_ON_RELEASE cfg res m) ∧
    (∀ n : Machine, CHECK_NOT_EXTENDED_TASK_ERROR cfg id m = some n → m.sameKernel n) ∧
    (∀ n : Machine, CHECK_SUSPENDED_TASK_ERROR cfg id m = some n → m.sameKernel n) ∧
    (∀ t : tpl_task, m.task_at id = some t →
      (∃ n, CHECK_NOT_EXTENDED_TASK_ERROR cfg id m = some n) ∧
      (∃ n, CHECK_SUSPENDED_TASK_ERROR cfg id m = some n)) := by
  refine ⟨?_, ?_, ?_, ?_, ?_, ?_, ?_, ?_, ?_, ?_, ?_, ?_⟩
  · exact Check.run_sameKernel cfg (.guarded (.taskId id)) m _ rfl
  · exact Check.run_sameKernel cfg (.guarded (.alarmId id)) m _ rfl
  · exact Check.run_sameKernel cfg (.guarded (.resourceId id)) m _ rfl
  · exact Check.run_sameKernel cfg (.guarded .callLevel) m _ rfl
  · exact Check.run_sameKernel cfg .notExtendedRunning m _ rfl
  · exact Check.run_sameKernel cfg (.guarded .runningOwnsRez) m _ rfl
  · exact Check.run_sameKernel cfg (.guarded (.prioOnGet res)) m _ rfl
  · exact Check.run_sameKernel cfg (.guarded (.prioOnRelease res)) m _ rfl
  · exact Check.run_sameKernel cfg (.guarded (.orderOnRelease res)) m _ rfl
  · exact fun n h => Check.run_sameKernel cfg (.notExtendedTask id) m n h
  · exact fun n h => Check.run_sameKernel cfg (.suspendedTask id) m n h
  · intro t ht
    constructor
    · simp only [CHECK_NOT_EXTENDED_TASK_ERROR, ht]
      split_ifs <;> exact ⟨_, rfl⟩
    · simp only [CHECK_SUSPENDED_TASK_ERROR, ht]
      split_ifs <;> exact ⟨_, rfl⟩

/-- C22, instantiated in the sample build: the suspended-state check fails
for task 2 and leaves the resource descriptors and the task descriptors as
they were. -/
theorem C22_validators_are_pure_witness :
    CHECK_SUSPENDED_TASK_ERROR sampleConfig 2 sampleMachine
      = some (sampleMachine.setResult E_OS_STATE) ∧
    sampleMachine.sameKernel (sampleMachine.setResult E_OS_STATE) :=
  ⟨rfl,
    (C22_validators_are_pure sampleConfig sampleMachine 2 0).2.2.2.2.2.2.2.2.2.2.1
      (sampleMachine.setResult E_OS_STATE) rfl⟩

/-- C26. For every validator of the header, every build, every state and every
incoming result, the result after the validator is either the incoming result
or the one code of that validator, which is never `E_OK`; hence a validator
that ends with `E_OK` started with `E_OK`, and a sequence of validators that
ends with `E_OK` started with `E_OK`, left the state as it was, and none of
its validators assigns anything in that state. -/
theorem C26_errors_never_cleared (cfg : Config) (m n : Machine) :
    (∀ c : Check, c.run cfg m = some n →
      (n.result = m.result ∨ n.result = c.code) ∧ c.code ≠ E_OK ∧
      (n.result = E_OK → m.result = E_OK)) ∧
    (∀ cs : List Check, runChecks cfg cs m = some n → n.result = E_OK →
      m.result = E_OK ∧ n = m ∧ ∀ c ∈ cs, c.run cfg m = some m) := by
  have step : ∀ (c : Check) (a b : Machine), c.run cfg a = some b → b.result = E_OK →
      b = a := by
    intro c a b h hb
    rcases Check.run_outcome cfg c a b h with rfl | rfl
    · rfl
    · exact absurd hb (Check.code_not_ok c)
  constructor
  · intro c h
    refine ⟨?_, Check.code_not_ok c, fun hn => ?_⟩
    · rcases Check.run_outcome cfg c m n h with rfl | rfl
      · exact Or.inl rfl
      · exact Or.inr rfl
    · rw [← step c m n h hn]
      exact hn
  · intro cs
    induction cs generalizing m with
    | nil =>
      intro h hn
      simp only [runChecks, Option.some.injEq] at h
      subst h
      exact ⟨hn, rfl, fun c hc => absurd hc (List.not_mem_nil c)⟩
    | cons c cs ih =>
      intro h hn
      simp only [runChecks] at h
      cases hk : c.run cfg m with
      | none => simp [hk] at h
      | some k =>
        simp only [hk] at h
        obtain ⟨hkok, hnk, hall⟩ := ih k h hn
        have hkm : k = m := step c m k hk hkok
        subst hkm
        refine ⟨hkok, hnk, fun c2 hc2 => ?_⟩
        rcases List.mem_cons.mp hc2 with rfl | hmem
        · exact hk
        · exact hall c2 hmem

/-- C26, instantiated in the sample build: a sequence of four validators that
ends with `E_OK` from the sample state; each of them leaves that state as it
is. -/
theorem C26_errors_never_cleared_witness :
    runChecks sampleConfig
      [.guarded (.taskId 1), .guarded .callLevel, .suspendedTask 1, .notExtendedRunning]
      sampleMachine = some sampleMachine ∧
    sampleMachine.result = E_OK ∧
    Check.run sampleConfig (.suspendedTask 1) sampleMachine = some sampleMachine :=
  ⟨rfl, rfl,
    ((C26_errors_never_cleared sampleConfig sampleMachine sampleMachine).2
      [.guarded (.taskId 1), .guarded .callLevel, .suspendedTask 1, .notExtendedRunning]
      rfl rfl).2.2 (.suspendedTask 1) (by decide)⟩

/-! ## Acquiring and releasing resources -/

/-- Reading a resource descriptor after `res->owner = owner;`. -/
theorem Machine.res_setOwner (m : Machine) (res r : ResRef) (owner : Option ObjRef) :
    (m.setOwner res owner).res r
      = if r = res then { m.res r with owner := owner } else m.res r := rfl

/-- Resource descriptors are not touched by `tpl_running_obj->resources = top;`. -/
theorem Machine.res_setResources (m : Machine) (r : ResRef) (top : Option ResRef) :
    (m.setResources top).res r = m.res r := rfl

/-- The running object is not touched by `res->owner = owner;`. -/
theorem Machine.running_setOwner (m : Machine) (res : ResRef) (owner : Option ObjRef) :
    (m.setOwner res owner).running = m.running := rfl

/-- The running object after `tpl_running_obj->resources = top;`. -/
theorem Machine.running_setResources (m : Machine) (top : Option ResRef) :
    (m.setResources top).running = { m.running with resources := top } := by
  simp [Machine.running, Machine.setResources]

/-- The acquire check ends with `E_OK` only if it started with `E_OK`, the
resource is free and its ceiling is at least the base priority of the running
object. -/
theorem get_accepted (cfg : Config) (res : ResRef) (m : Machine)
    (hext : cfg.OS_EXTENDED = true)
    (hacc : (CHECK_RESOURCE_PRIO_ERROR_ON_GET cfg res m).result = E_OK) :
    m.result = E_OK ∧ (m.res res).owner = none ∧
    m.running.static_desc.base_priority ≤ (m.res res).ceiling_priority := by
  unfold CHECK_RESOURCE_PRIO_ERROR_ON_GET at hacc
  simp only [hext, if_true] at hacc
  split_ifs at hacc with hc
  · simp [Machine.setResult] at hacc
  · refine ⟨hacc, ?_, ?_⟩
    · by_contra hown
      exact hc ⟨hacc, Or.inl hown⟩
    · by_contra hprio
      exact hc ⟨hacc, Or.inr (not_le.mp hprio)⟩

/-- C23. Under extended checking, in a state where the owner of every owned
resource has a base priority at most the ceiling of the resource, if
`CHECK_RESOURCE_PRIO_ERROR_ON_GET` ends with `E_OK` for `res` and the running
object, then `res` had no owner, and the state obtained by making the running
object the owner of `res` still satisfies the invariant, also once `res` has
been pushed on the held-resource stack. -/
theorem C23_owner_invariant_preserved (cfg : Config) (res : ResRef) (m : Machine)
    (hext : cfg.OS_EXTENDED = true) (hinv : ownerInvariant m)
    (hacc : (CHECK_RESOURCE_PRIO_ERROR_ON_GET cfg res m).result = E_OK) :
    (m.res res).owner = none ∧
    ownerInvariant (m.setOwner res (some m.tpl_running_obj)) ∧
    (∀ held : List ResRef,
      ownerInvariant (acquire res { machine := m, held := held }).machine) := by
  obtain ⟨-, hfree, hprio⟩ := get_accepted cfg res m hext hacc
  have hset : ownerInvariant (m.setOwner res (some m.tpl_running_obj)) := by
    intro r o ho
    rw [Machine.res_setOwner] at ho ⊢
    by_cases hr : r = res
    · simp only [hr, if_true, Option.some.injEq] at ho ⊢
      subst ho
      exact hprio
    · simp only [hr, if_false] at ho ⊢
      exact hinv r o ho
  refine ⟨hfree, hset, fun held => ?_⟩
  intro r o ho
  simp only [acquire, Machine.res_setResources] at ho ⊢
  have h := hset r o ho
  simp only [Machine.setResources, Machine.setOwner] at h ⊢
  by_cases hrun : o = m.tpl_running_obj
  · simp only [hrun, if_true] at h ⊢
    exact h
  · simp only [hrun, if_false] at h ⊢
    exact h

/-- The sample state satisfies the owner invariant. -/
theorem sampleMachine_ownerInvariant : ownerInvariant sampleMachine := by
  intro r o ho
  simp only [Machine.res, sampleMachine] at ho ⊢
  by_cases hr : r = 1
  · simp only [hr, if_true, Option.some.injEq] at ho ⊢
    subst ho
    exact Nat.le_refl _
  · simp [hr] at ho

/-- C23, instantiated in the sample build: task 0 is granted the free resource
0 and the invariant holds once it owns it. -/
theorem C23_owner_invariant_preserved_witness :
    sampleConfig.OS_EXTENDED = true ∧ ownerInvariant sampleMachine ∧
    (CHECK_RESOURCE_PRIO_ERROR_ON_GET sampleConfig 0 sampleMachine).result = E_OK ∧
    ownerInvariant (sampleMachine.setOwner 0 (some sampleMachine.tpl_running_obj)) :=
  ⟨rfl, sampleMachine_ownerInvariant, by decide,
    (C23_owner_invariant_preserved sampleConfig 0 sampleMachine rfl
      sampleMachine_ownerInvariant (by decide)).2.1⟩

/-- Releasing right after acquiring a free resource gives the state back, when
the field `resources` of the running object is the top of its stack. -/
theorem release_acquire (R : ResRef) (k : ResourceView)
    (hfree : (k.machine.res R).owner = none) (hcoh : k.coherent) :
    release R (acquire R k) = k := by
  obtain ⟨m, held⟩ := k
  obtain ⟨result, os, run, tbl, tmem, rmem, svc, calls⟩ := m
  simp only [ResourceView.coherent, Machine.running, Machine.res] at hfree hcoh
  have hres : (fun r => if r = R then
        { (if r = R then { rmem r with owner := some run } else rmem r) with owner := none }
      else (if r = R then { rmem r with owner := some run } else rmem r)) = rmem := by
    funext r
    by_cases hr : r = R
    · subst hr
      simp only [if_true]
      rw [← hfree]
    · simp only [hr, if_false]
  have htask : (fun o => if o = run then
        ({ exec_desc :=
            { (if o = run then
                ({ exec_desc := { (tmem o).exec_desc with resources := some R } } : tpl_task)
               else tmem o).exec_desc with resources := held.head? } } : tpl_task)
      else (if o = run then
        ({ exec_desc := { (tmem o).exec_desc with resources := some R } } : tpl_task)
        else tmem o)) = tmem := by
    funext o
    by_cases ho : o = run
    · subst ho
      simp only [if_true]
      rw [← hcoh]
    · simp only [ho, if_false]
  simp only [release, acquire, Machine.setOwner, Machine.setResources, List.tail_cons, hres,
    htask]

/-- The release checks accept, in either order, a resource that the running
object owns, that is the top of its stack and whose ceiling is at least its
base priority. -/
theorem release_accepted (cfg : Config) (R : ResRef) (m : Machine)
    (hext : cfg.OS_EXTENDED = true) (hown : (m.res R).owner ≠ none)
    (htop : m.running.resources = some R)
    (hprio : m.running.static_desc.base_priority ≤ (m.res R).ceiling_priority) :
    validateRelease cfg R m = m ∧ validateReleaseSwapped cfg R m = m := by
  have hp : CHECK_RESOURCE_PRIO_ERROR_ON_RELEASE cfg R m = m := by
    simp [CHECK_RESOURCE_PRIO_ERROR_ON_RELEASE, hext, not_lt.mpr hprio]
  have ho : CHECK_RESOURCE_ORDER_ON_RELEASE cfg R m = m := by
    simp [CHECK_RESOURCE_ORDER_ON_RELEASE, hext, hown, htop]
  constructor
  · rw [validateRelease, hp, ho]
  · rw [validateReleaseSwapped, ho, hp]

/-- One acquisition and release of a free resource whose ceiling is at least
the base priority of the running object: every check accepts, and the stack
and the owner are restored. -/
theorem round_trip_once (cfg : Config) (R : ResRef) (k : ResourceView)
    (hext : cfg.OS_EXTENDED = true) (hok : k.machine.result = E_OK)
    (hfree : (k.machine.res R).owner = none)
    (hprio : k.machine.running.static_desc.base_priority
      ≤ (k.machine.res R).ceiling_priority) :
    CHECK_RESOURCE_PRIO_ERROR_ON_GET cfg R k.machine = k.machine ∧
    (validateRelease cfg R (acquire R k).machine = (acquire R k).machine ∧
      validateReleaseSwapped cfg R (acquire R k).machine = (acquire R k).machine ∧
      (validateRelease cfg R (acquire R k).machine).result = E_OK ∧
      (validateReleaseSwapped cfg R (acquire R k).machine).result = E_OK) ∧
    ((release R (acquire R k)).held = k.held ∧
      ((release R (acquire R k)).machine.res R).owner = (k.machine.res R).owner) := by
  have hget : CHECK_RESOURCE_PRIO_ERROR_ON_GET cfg R k.machine = k.machine := by
    simp [CHECK_RESOURCE_PRIO_ERROR_ON_GET, hext, hfree, not_lt.mpr hprio]
  have hrel := release_accepted cfg R (acquire R k).machine hext
    (by simp [acquire, Machine.res_setResources, Machine.res_setOwner])
    (by simp [acquire, Machine.running_setResources])
    (by
      simp only [acquire, Machine.running_setResources, Machine.running_setOwner,
        Machine.res_setResources, Machine.res_setOwner, if_true]
      exact hprio)
  have hres : (acquire R k).machine.result = E_OK := hok
  refine ⟨hget, ⟨hrel.1, hrel.2, ?_, ?_⟩, ⟨rfl, ?_⟩⟩
  · rw [hrel.1]
    exact hres
  · rw [hrel.2]
    exact hres
  · simp only [release, acquire, Machine.res_setResources, Machine.res_setOwner, if_true]
    exact hfree.symm

/-- After an acquisition and a release of `R`, the conditions of a new
acquisition of `R` hold again. -/
theorem round_trip_again (R : ResRef) (k : ResourceView)
    (hok : k.machine.result = E_OK)
    (hprio : k.machine.running.static_desc.base_priority
      ≤ (k.machine.res R).ceiling_priority) :
    (release R (acquire R k)).machine.result = E_OK ∧
    ((release R (acquire R k)).machine.res R).owner = none ∧
    (release R (acquire R k)).machine.running.static_desc.base_priority
      ≤ ((release R (acquire R k)).machine.res R).ceiling_priority := by
  refine ⟨hok, ?_, ?_⟩
  · simp [release, acquire, Machine.res_setResources, Machine.res_setOwner]
  · simp only [release, acquire, Machine.running_setResources, Machine.running_setOwner,
      Machine.res_setResources, Machine.res_setOwner, if_true]
    exact hprio

/-- C24. Under extended checking with no error pending, for every resource `R`
without owner whose ceiling is at least the base priority of the running
object: the acquire check accepts `R`; after the acquisition effect (owner set
to the running object, `R` pushed on its stack) the release order and release
priority checks accept `R` in either order; after the release effect the
stack and the ownership of `R` are what they were before the acquisition
(the whole state is, when the field `resources` was the top of the stack);
repeating the sequence gives the same outcome. -/
theorem C24_acquire_release_round_trip (cfg : Config) (R : ResRef) (k : ResourceView)
    (hext : cfg.OS_EXTENDED = true) (hok : k.machine.result = E_OK)
    (hfree : (k.machine.res R).owner = none)
    (hprio : k.machine.running.static_desc.base_priority
      ≤ (k.machine.res R).ceiling_priority) :
    CHECK_RESOURCE_PRIO_ERROR_ON_GET cfg R k.machine = k.machine ∧
    (validateRelease cfg R (acquire R k).machine = (acquire R k).machine ∧
      validateReleaseSwapped cfg R (acquire R k).machine = (acquire R k).machine ∧
      (validateRelease cfg R (acquire R k).machine).result = E_OK ∧
      (validateReleaseSwapped cfg R (acquire R k).machine).result = E_OK) ∧
    ((release R (acquire R k)).held = k.held ∧
      ((release R (acquire R k)).machine.res R).owner = (k.machine.res R).owner ∧
      (k.coherent → release R (acquire R k) = k)) ∧
    (CHECK_RESOURCE_PRIO_ERROR_ON_GET cfg R (release R (acquire R k)).machine
        = (release R (acquire R k)).machine ∧
      (validateRelease cfg R (acquire R (release R (acquire R k))).machine).result = E_OK ∧
      (validateReleaseSwapped cfg R (acquire R (release R (acquire R k))).machine).result
        = E_OK ∧
      (release R (acquire R (release R (acquire R k)))).held = k.held ∧
      ((release R (acquire R (release R (acquire R k)))).machine.res R).owner
        = (k.machine.res R).owner) := by
  have h1 := round_trip_once cfg R k hext hok hfree hprio
  obtain ⟨hok2, hfree2, hprio2⟩ := round_trip_again R k hok hprio
  have h2 := round_trip_once cfg R (release R (acquire R k)) hext hok2 hfree2 hprio2
  refine ⟨h1.1, h1.2.1, ⟨h1.2.2.1, h1.2.2.2, fun hcoh => release_acquire R k hfree hcoh⟩,
    ⟨h2.1, h2.2.1.2.2.1, h2.2.1.2.2.2, ?_, ?_⟩⟩
  · rw [h2.2.2.1, h1.2.2.1]
  · rw [h2.2.2.2, h1.2.2.2]

/-- C24, instantiated in the sample build: task 0 acquires and releases the
free resource 0 (ceiling 1, its own base priority); the release is accepted
and the stack is empty again. -/
theorem C24_acquire_release_round_trip_witness :
    sampleConfig.OS_EXTENDED = true ∧ sampleView.machine.result = E_OK ∧
    (sampleView.machine.res 0).owner = none ∧
    (validateRelease sampleConfig 0 (acquire 0 sampleView).machine).result = E_OK ∧
    (release 0 (acquire 0 sampleView)).held = [] :=
  ⟨rfl, rfl, rfl,
    (C24_acquire_release_round_trip sampleConfig 0 sampleView rfl rfl rfl
      (by decide)).2.1.2.2.1,
    (C24_acquire_release_round_trip sampleConfig 0 sampleView rfl rfl rfl
      (by decide)).2.2.1.1⟩

/-- C25. Under extended checking with no error pending, for two distinct
resources `R1` and `R2` without owner whose ceilings are at least the base
priority of the running object: the acquire check accepts `R1`, then `R2`
once `R1` is acquired; after `R1` then `R2` have been acquired, the
validation of a release of `R1` ends with `E_OS_NOFUNC` and the validation of
a release of `R2` ends with `E_OK`, the two release checks being taken in
either order; once `R2` has been released, the validation of a release of
`R1` ends with `E_OK`. -/
theorem C25_nesting_law (cfg : Config) (R1 R2 : ResRef) (k : ResourceView)
    (hext : cfg.OS_EXTENDED = true) (hok : k.machine.result = E_OK) (hne : R1 ≠ R2)
    (hfree1 : (k.machine.res R1).owner = none) (hfree2 : (k.machine.res R2).owner = none)
    (hprio1 : k.machine.running.static_desc.base_priority
      ≤ (k.machine.res R1).ceiling_priority)
    (hprio2 : k.machine.running.static_desc.base_priority
      ≤ (k.machine.res R2).ceiling_priority) :
    (CHECK_RESOURCE_PRIO_ERROR_ON_GET cfg R1 k.machine = k.machine ∧
      CHECK_RESOURCE_PRIO_ERROR_ON_GET cfg R2 (acquire R1 k).machine
        = (acquire R1 k).machine) ∧
    ((validateRelease cfg R1 (acquire R2 (acquire R1 k)).machine).result = E_OS_NOFUNC ∧
      (validateReleaseSwapped cfg R1 (acquire R2 (acquire R1 k)).machine).result
        = E_OS_NOFUNC ∧
      (CHECK_RESOURCE_ORDER_ON_RELEASE cfg R1 (acquire R2 (acquire R1 k)).machine).result
        = E_OS_NOFUNC) ∧
    ((validateRelease cfg R2 (acquire R2 (acquire R1 k)).machine).result = E_OK ∧
      (validateReleaseSwapped cfg R2 (acquire R2 (acquire R1 k)).machine).result = E_OK) ∧
    ((validateRelease cfg R1 (release R2 (acquire R2 (acquire R1 k))).machine).result = E_OK ∧
      (validateReleaseSwapped cfg R1 (release R2 (acquire R2 (acquire R1 k))).machine).result
        = E_OK) := by
  have hne2 : R2 ≠ R1 := fun e => hne e.symm
  have hres2 : (acquire R2 (acquire R1 k)).machine.result = E_OK := hok
  have hres3 : (release R2 (acquire R2 (acquire R1 k))).machine.result = E_OK := hok
  have hacc2 := release_accepted cfg R2 (acquire R2 (acquire R1 k)).machine hext
    (by simp [acquire, Machine.res_setResources, Machine.res_setOwner])
    (by simp [acquire, Machine.running_setResources])
    (by
      simp only [acquire, Machine.running_setResources, Machine.running_setOwner,
        Machine.res_setResources, Machine.res_setOwner, if_true, hne2, if_false]
      exact hprio2)
  have hacc1 := release_accepted cfg R1 (release R2 (acquire R2 (acquire R1 k))).machine hext
    (by simp [release, acquire, Machine.res_setResources, Machine.res_setOwner, hne])
    (by simp [release, acquire, Machine.running_setResources])
    (by
      simp only [release, acquire, Machine.running_setResources, Machine.running_setOwner,
        Machine.res_setResources, Machine.res_setOwner, if_true, hne, if_false]
      exact hprio1)
  have hprioR1 : CHECK_RESOURCE_PRIO_ERROR_ON_RELEASE cfg R1 (acquire R2 (acquire R1 k)).machine
      = (acquire R2 (acquire R1 k)).machine := by
    have hp : (acquire R2 (acquire R1 k)).machine.running.static_desc.base_priority
        ≤ ((acquire R2 (acquire R1 k)).machine.res R1).ceiling_priority := by
      simp only [acquire, Machine.running_setResources, Machine.running_setOwner,
        Machine.res_setResources, Machine.res_setOwner, if_true, hne, if_false]
      exact hprio1
    simp [CHECK_RESOURCE_PRIO_ERROR_ON_RELEASE, hext, not_lt.mpr hp]
  have horderR1 : CHECK_RESOURCE_ORDER_ON_RELEASE cfg R1 (acquire R2 (acquire R1 k)).machine
      = (acquire R2 (acquire R1 k)).machine.setResult E_OS_NOFUNC := by
    have htop : (acquire R2 (acquire R1 k)).machine.running.resources ≠ some R1 := by
      simp [acquire, Machine.running_setResources, hne2]
    simp [CHECK_RESOURCE_ORDER_ON_RELEASE, hext, hres2, htop]
  have hget1 : CHECK_RESOURCE_PRIO_ERROR_ON_GET cfg R1 k.machine = k.machine := by
    simp [CHECK_RESOURCE_PRIO_ERROR_ON_GET, hext, hfree1, not_lt.mpr hprio1]
  have hget2 : CHECK_RESOURCE_PRIO_ERROR_ON_GET cfg R2 (acquire R1 k).machine
      = (acquire R1 k).machine := by
    have hf : ((acquire R1 k).machine.res R2).owner = none := by
      simp only [acquire, Machine.res_setResources, Machine.res_setOwner, hne2, if_false]
      exact hfree2
    have hp : (acquire R1 k).machine.running.static_desc.base_priority
        ≤ ((acquire R1 k).machine.res R2).ceiling_priority := by
      simp only [acquire, Machine.running_setResources, Machine.running_setOwner,
        Machine.res_setResources, Machine.res_setOwner, hne2, if_false]
      exact hprio2
    simp [CHECK_RESOURCE_PRIO_ERROR_ON_GET, hext, hf, not_lt.mpr hp]
  refine ⟨⟨hget1, hget2⟩, ⟨?_, ?_, ?_⟩, ⟨?_, ?_⟩, ⟨?_, ?_⟩⟩
  · rw [validateRelease, hprioR1, horderR1]
    rfl
  · rw [validateReleaseSwapped, horderR1]
    simp [CHECK_RESOURCE_PRIO_ERROR_ON_RELEASE, hext, Machine.setResult]
  · rw [horderR1]
    rfl
  · rw [hacc2.1]
    exact hres2
  · rw [hacc2.2]
    exact hres2
  · rw [hacc1.1]
    exact hres3
  · rw [hacc1.2]
    exact hres3

/-- C25, instantiated in the sample build: task 0 (base priority 1) acquires
the free resources 0 and 2 (ceilings 1 and 3) in that order; releasing 0 first
is refused, releasing 2 is accepted, and 0 is accepted once 2 is released. -/
theorem C25_nesting_law_witness :
    sampleConfig.OS_EXTENDED = true ∧ sampleView.machine.result = E_OK ∧
    (validateRelease sampleConfig 0 (acquire 2 (acquire 0 sampleView)).machine).result
      = E_OS_NOFUNC ∧
    (validateRelease sampleConfig 2 (acquire 2 (acquire 0 sampleView)).machine).result
      = E_OK ∧
    (validateRelease sampleConfig 0
      (release 2 (acquire 2 (acquire 0 sampleView))).machine).result = E_OK :=
  ⟨rfl, rfl,
    (C25_nesting_law sampleConfig 0 2 sampleView rfl rfl (by decide) rfl rfl (by decide)
      (by decide)).2.1.1,
    (C25_nesting_law sampleConfig 0 2 sampleView rfl rfl (by decide) rfl rfl (by decide)
      (by decide)).2.2.1.1,
    (C25_nesting_law sampleConfig 0 2 sampleView rfl rfl (by decide) rfl rfl (by decide)
      (by decide)).2.2.2.1⟩

/-! ## Balance of the lock pairs -/

/-- `LOCK_x()` takes the lock once when the policy is enabled, never
otherwise, and releases nothing. -/
theorem LockPolicy.lock_counts (cfg : Config) (p : LockPolicy) (m : Machine) :
    (p.lock cfg m).acquisitions = m.acquisitions + (if p.enabled cfg = true then 1 else 0) ∧
    (p.lock cfg m).releases = m.releases := by
  cases p
  · by_cases h : cfg.WITH_ERROR_HOOK = true <;>
      simp [LockPolicy.lock, LockPolicy.enabled, LOCK_WHEN_HOOK, h,
        Machine.acquisitions_call, Machine.releases_call]
  · by_cases h : cfg.WITH_ERROR_HOOK = true <;>
      simp [LockPolicy.lock, LockPolicy.enabled, LOCK_WHEN_NO_HOOK, h,
        Machine.acquisitions_call, Machine.releases_call]
  · by_cases h : cfg.NO_TASK = true <;>
      simp [LockPolicy.lock, LockPolicy.enabled, LOCK_WHEN_TASK, h,
        Machine.acquisitions_call, Machine.releases_call]
  · by_cases h : cfg.NO_RESOURCE = true <;>
      simp [LockPolicy.lock, LockPolicy.enabled, LOCK_WHEN_RESOURCE, h,
        Machine.acquisitions_call, Machine.releases_call]

/-- `UNLOCK_x()` releases the lock once when the policy is enabled, never
otherwise, and takes nothing. -/
theorem LockPolicy.unlock_counts (cfg : Config) (p : LockPolicy) (m : Machine) :
    (p.unlock cfg m).releases = m.releases + (if p.enabled cfg = true then 1 else 0) ∧
    (p.unlock cfg m).acquisitions = m.acquisitions := by
  cases p
  · by_cases h : cfg.WITH_ERROR_HOOK = true <;>
      simp [LockPolicy.unlock, LockPolicy.enabled, UNLOCK_WHEN_HOOK, h,
        Machine.acquisitions_call, Machine.releases_call]
  · by_cases h : cfg.WITH_ERROR_HOOK = true <;>
      simp [LockPolicy.unlock, LockPolicy.enabled, UNLOCK_WHEN_NO_HOOK, h,
        Machine.acquisitions_call, Machine.releases_call]
  · by_cases h : cfg.NO_TASK = true <;>
      simp [LockPolicy.unlock, LockPolicy.enabled, UNLOCK_WHEN_TASK, h,
        Machine.acquisitions_call, Machine.releases_call]
  · by_cases h : cfg.NO_RESOURCE = true <;>
      simp [LockPolicy.unlock, LockPolicy.enabled, UNLOCK_WHEN_RESOURCE, h,
        Machine.acquisitions_call, Machine.releases_call]

/-- Opening the pairs of `ps` takes the lock once for each enabled pair. -/
theorem openPairs_counts (cfg : Config) (ps : List LockPolicy) (m : Machine) :
    (openPairs cfg ps m).acquisitions
      = m.acquisitions + ps.countP (fun p => p.enabled cfg) ∧
    (openPairs cfg ps m).releases = m.releases := by
  induction ps generalizing m with
  | nil => simp [openPairs]
  | cons p ps ih =>
    have h := ih (p.lock cfg m)
    simp only [openPairs, List.foldl_cons] at h ⊢
    rw [h.1, h.2, (LockPolicy.lock_counts cfg p m).1, (LockPolicy.lock_counts cfg p m).2,
      List.countP_cons]
    constructor
    · omega
    · rfl

/-- Closing the pairs of `ps` releases the lock once for each enabled pair. -/
theorem closePairs_counts (cfg : Config) (ps : List LockPolicy) (m : Machine) :
    (closePairs cfg ps m).releases = m.releases + ps.countP (fun p => p.enabled cfg) ∧
    (closePairs cfg ps m).acquisitions = m.acquisitions := by
  induction ps with
  | nil => simp [closePairs]
  | cons p ps ih =>
    simp only [closePairs, List.foldr_cons] at ih ⊢
    rw [(LockPolicy.unlock_counts cfg p _).1, (LockPolicy.unlock_counts cfg p _).2, ih.1,
      ih.2, List.countP_cons]
    constructor
    · omega
    · rfl

/-- C27. For each of the four lock policies and every build, `LOCK_x` takes
the kernel lock if and only if `UNLOCK_x` releases it (both do exactly when
the policy is enabled in the build, and do nothing otherwise). Hence a service
body that brackets its work, which does not touch the lock itself, with
matching `LOCK_x` ... `UNLOCK_x` pairs and starts with the lock free holds it,
while it works, at a depth equal to the number of enabled pairs it has opened,
and ends with the lock free. -/
theorem C27_lock_unlock_balanced (cfg : Config) (m : Machine) :
    (∀ p : LockPolicy,
      ((p.lock cfg m).acquisitions = m.acquisitions + 1 ↔ p.enabled cfg = true) ∧
      ((p.unlock cfg m).releases = m.releases + 1 ↔ p.enabled cfg = true) ∧
      ((p.lock cfg m).acquisitions = m.acquisitions + 1 ↔
        (p.unlock cfg m).releases = m.releases + 1) ∧
      (p.enabled cfg = false → p.lock cfg m = m ∧ p.unlock cfg m = m)) ∧
    (∀ (ps : List LockPolicy) (work : Machine → Machine), lockNeutral work → m.lockFree →
      (openPairs cfg ps m).acquisitions
        = (openPairs cfg ps m).releases + ps.countP (fun p => p.enabled cfg) ∧
      (work (openPairs cfg ps m)).acquisitions
        = (work (openPairs cfg ps m)).releases + ps.countP (fun p => p.enabled cfg) ∧
      (nestedService cfg ps work m).lockFree) := by
  constructor
  · intro p
    have hl := (LockPolicy.lock_counts cfg p m).1
    have hu := (LockPolicy.unlock_counts cfg p m).1
    by_cases h : p.enabled cfg = true
    · simp only [h, if_true] at hl hu
      refine ⟨⟨fun _ => h, fun _ => hl⟩, ⟨fun _ => h, fun _ => hu⟩,
        ⟨fun _ => hu, fun _ => hl⟩, fun hf => ?_⟩
      rw [h] at hf
      cases hf
    · simp only [h, Bool.false_eq_true, if_false, Nat.add_zero] at hl hu
      refine ⟨⟨fun e => ?_, fun e => absurd e h⟩, ⟨fun e => ?_, fun e => absurd e h⟩,
        ⟨fun e => ?_, fun e => ?_⟩, fun _ => ?_⟩
      · rw [hl] at e
        exact absurd e (by omega)
      · rw [hu] at e
        exact absurd e (by omega)
      · rw [hl] at e
        exact absurd e (by omega)
      · rw [hu] at e
        exact absurd e (by omega)
      · simp only [Bool.not_eq_true] at h
        cases p <;>
          simp_all [LockPolicy.lock, LockPolicy.unlock, LockPolicy.enabled, LOCK_WHEN_HOOK,
            UNLOCK_WHEN_HOOK, LOCK_WHEN_NO_HOOK, UNLOCK_WHEN_NO_HOOK, LOCK_WHEN_TASK,
            UNLOCK_WHEN_TASK, LOCK_WHEN_RESOURCE, UNLOCK_WHEN_RESOURCE]
  · intro ps work hwork hfree
    have ho := openPairs_counts cfg ps m
    have hw := hwork (openPairs cfg ps m)
    have hc := closePairs_counts cfg ps (work (openPairs cfg ps m))
    simp only [Machine.lockFree] at hfree
    refine ⟨?_, ?_, ?_⟩
    · rw [ho.1, ho.2, hfree]
    · rw [hw.1, hw.2, ho.1, ho.2, hfree]
    · simp only [Machine.lockFree, nestedService]
      rw [hc.1, hc.2, hw.1, hw.2, ho.1, ho.2, hfree]

/-- C27, instantiated in the sample build without the error hook: of the
pairs `WHEN_HOOK`, `WHEN_TASK`, `WHEN_RESOURCE` opened in that order, two are
enabled; the lock is held at depth 2 inside and is free at the end. -/
theorem C27_lock_unlock_balanced_witness :
    lockNeutral (fun x => x.setResult E_OS_ID) ∧ sampleMachine.lockFree ∧
    (openPairs sampleConfigNoHook [.WHEN_HOOK, .WHEN_TASK, .WHEN_RESOURCE]
      sampleMachine).acquisitions
      = (openPairs sampleConfigNoHook [.WHEN_HOOK, .WHEN_TASK, .WHEN_RESOURCE]
        sampleMachine).releases + 2 ∧
    (nestedService sampleConfigNoHook [.WHEN_HOOK, .WHEN_TASK, .WHEN_RESOURCE]
      (fun x => x.setResult E_OS_ID) sampleMachine).lockFree :=
  ⟨fun _ => ⟨rfl, rfl⟩, rfl,
    ((C27_lock_unlock_balanced sampleConfigNoHook sampleMachine).2
      [.WHEN_HOOK, .WHEN_TASK, .WHEN_RESOURCE] (fun x => x.setResult E_OS_ID)
      (fun _ => ⟨rfl, rfl⟩) rfl).1,
    ((C27_lock_unlock_balanced sampleConfigNoHook sampleMachine).2
      [.WHEN_HOOK, .WHEN_TASK, .WHEN_RESOURCE] (fun x => x.setResult E_OS_ID)
      (fun _ => ⟨rfl, rfl⟩) rfl).2.2⟩

end Trampoline
